import Mathlib

/-!
# Aurora kernel stub: state manager and C boundary

A shallow embedding of `aurora/src/kernel/l4_stub.cpp` (with the constants and
record types of `aurora/include/aurora_abi.h`) together with theorems about
its lifecycle gate, thread registry and id counter.

Conventions of the embedding.

* `uint32_t` / `uint64_t` values (thread ids, of type `aurora_thread_id_t`,
  among them) are natural numbers; every place where the source wraps or
  truncates carries an explicit `% 2 ^ 32` or `% 2 ^ 64`.
* A `steady_clock::time_point` is the integer tick count of the clock, one tick
  being a nanosecond; every operation that reads the clock receives the reading
  as the argument `now`.
* A C string is the list of its characters before the terminator, one `Char`
  per byte.
* A pointer that the code only tests and reads is an `Option` of its pointee
  (`none` is the null pointer); a pointer that the code only tests and writes
  through is a `Bool` (`true` when it is not null), and what the call stores
  through it is part of the result.
* The lines printed with `printf` are not part of the embedded state.
-/

namespace aurora

/-! ## `aurora_abi.h` -/

/-- The constant `AURORA_ABI_VERSION_MAJOR`. -/
def AURORA_ABI_VERSION_MAJOR : Nat := 0

/-- The constant `AURORA_ABI_VERSION_MINOR`. -/
def AURORA_ABI_VERSION_MINOR : Nat := 1

/-- The constant `AURORA_ABI_VERSION_PATCH`. -/
def AURORA_ABI_VERSION_PATCH : Nat := 0

/-- The error codes of the boundary. -/
inductive aurora_error_t where
  | AURORA_OK
  | AURORA_ERROR_INVALID_PARAM
  | AURORA_ERROR_NOT_INITIALIZED
  | AURORA_ERROR_ALREADY_INITIALIZED
  | AURORA_ERROR_OUT_OF_MEMORY
  | AURORA_ERROR_UNKNOWN
  deriving DecidableEq, Repr

open aurora_error_t

/-- The integer value of an error code, as the enum declares it. -/
def aurora_error_t.toInt : aurora_error_t → Int
  | AURORA_OK => 0
  | AURORA_ERROR_INVALID_PARAM => -1
  | AURORA_ERROR_NOT_INITIALIZED => -2
  | AURORA_ERROR_ALREADY_INITIALIZED => -3
  | AURORA_ERROR_OUT_OF_MEMORY => -4
  | AURORA_ERROR_UNKNOWN => -99

/-- A C string: the characters before the terminator. -/
abbrev CString := List Char

/-- The record `aurora_kernel_status_t`. -/
structure aurora_kernel_status_t where
  initialized : Bool
  version_major : Nat
  version_minor : Nat
  version_patch : Nat
  uptime_ms : Nat
  active_threads : Nat
  deriving DecidableEq, Repr

/-- The record `aurora_message_t`; `data` is the C string held in the 256-byte
buffer. -/
structure aurora_message_t where
  msg_id : Nat
  timestamp : Nat
  data : CString
  data_size : Nat
  deriving DecidableEq, Repr

/-! ## `aurora::kernel::KernelState` -/

/-- The record `Thread`; `name` is the C string held in the 64-byte buffer. -/
structure Thread where
  id : Nat
  name : CString
  active : Bool
  deriving DecidableEq, Repr

/-- The data members of `KernelState` (without the mutex). -/
structure KernelState where
  m_initialized : Bool
  m_start_time : Int
  m_threads : List Thread
  m_next_thread_id : Nat
  deriving DecidableEq, Repr

/-- The constructor `KernelState()`: uninitialized, next id 1, an empty registry
and a default-constructed (epoch) start time. -/
def KernelState.new : KernelState :=
  { m_initialized := false, m_start_time := 0, m_threads := [], m_next_thread_id := 1 }

/-- The method `is_initialized`. -/
def KernelState.is_initialized (s : KernelState) : Bool :=
  s.m_initialized

/-- The method `initialize`; `now` is the clock reading it takes. -/
def KernelState.initialize (s : KernelState) (now : Int) : aurora_error_t × KernelState :=
  if s.m_initialized then
    (AURORA_ERROR_ALREADY_INITIALIZED, s)
  else
    (AURORA_OK, { s with m_initialized := true, m_start_time := now })

/-- The method `shutdown`. -/
def KernelState.shutdown (s : KernelState) : aurora_error_t × KernelState :=
  if !s.m_initialized then
    (AURORA_ERROR_NOT_INITIALIZED, s)
  else
    (AURORA_OK, { s with m_threads := [], m_initialized := false })

/-- The method `get_uptime_ms`: the duration `now - m_start_time` cast to whole
milliseconds (rounding toward zero), then to `uint64_t`. -/
def KernelState.get_uptime_ms (s : KernelState) (now : Int) : Nat :=
  if !s.m_initialized then 0
  else (((now - s.m_start_time).tdiv 1000000) % (2 ^ 64 : Int)).toNat

/-- The `strncpy` of `create_thread` into the zeroed 64-byte buffer, followed by
the store of the terminator at index 63: the first 63 characters of the source,
which is `"unnamed"` when `name` is null. -/
def Thread.copy_name (name : Option CString) : CString :=
  (match name with
    | some n => n
    | none => "unnamed".toList).take (64 - 1)

/-- The method `create_thread`, called with a valid `thread_id` pointer. The
third component is the value stored through `thread_id`, if any. -/
def KernelState.create_thread (s : KernelState) (name : Option CString) :
    aurora_error_t × KernelState × Option Nat :=
  if !s.m_initialized then
    (AURORA_ERROR_NOT_INITIALIZED, s, none)
  else
    let thread : Thread :=
      { id := s.m_next_thread_id, name := Thread.copy_name name, active := true }
    (AURORA_OK,
      { s with m_next_thread_id := (s.m_next_thread_id + 1) % 2 ^ 32,
               m_threads := s.m_threads ++ [thread] },
      some thread.id)

/-- The loop of `destroy_thread` over the registry: at the first record whose id
is `thread_id` the record is erased and the loop ends (`some` of the registry
that remains); `none` when the loop runs to the end. -/
def KernelState.destroy_loop (thread_id : Nat) :
    List Thread → Option (List Thread)
  | [] => none
  | t :: ts =>
    if t.id = thread_id then some ts
    else
      match KernelState.destroy_loop thread_id ts with
      | some ts1 => some (t :: ts1)
      | none => none

/-- The method `destroy_thread`. -/
def KernelState.destroy_thread (s : KernelState) (thread_id : Nat) :
    aurora_error_t × KernelState :=
  if !s.m_initialized then
    (AURORA_ERROR_NOT_INITIALIZED, s)
  else
    match KernelState.destroy_loop thread_id s.m_threads with
    | some ts => (AURORA_OK, { s with m_threads := ts })
    | none => (AURORA_ERROR_INVALID_PARAM, s)

/-- The method `get_active_thread_count`: the registry size cast to
`uint32_t`. -/
def KernelState.get_active_thread_count (s : KernelState) : Nat :=
  s.m_threads.length % 2 ^ 32

/-! ## The `extern "C"` boundary

Every boundary function acts on the global `g_kernel`; here the state of
`g_kernel` is the first argument, and the state after the call is part of the
result. -/

/-- What a boundary call stores through its output pointers. -/
inductive Written where
  | nothing
  | status (st : aurora_kernel_status_t)
  | thread_id (id : Nat)
  | count (n : Nat)
  | received (sender : Nat) (message : aurora_message_t)
  | output (text : CString)
  deriving DecidableEq, Repr

/-- The result of a boundary call: the code returned, the state of `g_kernel`
after the call, and what was stored through the output pointers. -/
structure Outcome where
  code : aurora_error_t
  state : KernelState
  written : Written
  deriving DecidableEq, Repr

/-- The function `aurora_kernel_init`. -/
def aurora_kernel_init (g : KernelState) (now : Int) : Outcome :=
  let r := KernelState.initialize g now
  { code := r.1, state := r.2, written := Written.nothing }

/-- The function `aurora_kernel_shutdown`. -/
def aurora_kernel_shutdown (g : KernelState) : Outcome :=
  let r := KernelState.shutdown g
  { code := r.1, state := r.2, written := Written.nothing }

/-- The function `aurora_kernel_get_status`. -/
def aurora_kernel_get_status (g : KernelState) (now : Int) (status : Bool) : Outcome :=
  if !status then
    { code := AURORA_ERROR_INVALID_PARAM, state := g, written := Written.nothing }
  else if !g.is_initialized then
    { code := AURORA_ERROR_NOT_INITIALIZED, state := g, written := Written.nothing }
  else
    { code := AURORA_OK, state := g,
      written := Written.status
        { initialized := true,
          version_major := AURORA_ABI_VERSION_MAJOR,
          version_minor := AURORA_ABI_VERSION_MINOR,
          version_patch := AURORA_ABI_VERSION_PATCH,
          uptime_ms := g.get_uptime_ms now,
          active_threads := g.get_active_thread_count } }

/-- The function `aurora_thread_create`. -/
def aurora_thread_create (g : KernelState) (thread_id : Bool) (name : Option CString) :
    Outcome :=
  if !thread_id then
    { code := AURORA_ERROR_INVALID_PARAM, state := g, written := Written.nothing }
  else
    let r := KernelState.create_thread g name
    { code := r.1, state := r.2.1,
      written := match r.2.2 with
        | some id => Written.thread_id id
        | none => Written.nothing }

/-- The function `aurora_thread_destroy`. -/
def aurora_thread_destroy (g : KernelState) (thread_id : Nat) : Outcome :=
  let r := KernelState.destroy_thread g thread_id
  { code := r.1, state := r.2, written := Written.nothing }

/-- The function `aurora_thread_get_count`. -/
def aurora_thread_get_count (g : KernelState) (count : Bool) : Outcome :=
  if !count then
    { code := AURORA_ERROR_INVALID_PARAM, state := g, written := Written.nothing }
  else if !g.is_initialized then
    { code := AURORA_ERROR_NOT_INITIALIZED, state := g, written := Written.nothing }
  else
    { code := AURORA_OK, state := g, written := Written.count g.get_active_thread_count }

/-- The function `aurora_ipc_send`. -/
def aurora_ipc_send (g : KernelState) (_target : Nat)
    (message : Option aurora_message_t) : Outcome :=
  match message with
  | none => { code := AURORA_ERROR_INVALID_PARAM, state := g, written := Written.nothing }
  | some _ =>
    if !g.is_initialized then
      { code := AURORA_ERROR_NOT_INITIALIZED, state := g, written := Written.nothing }
    else
      { code := AURORA_OK, state := g, written := Written.nothing }

/-- The function `aurora_ipc_receive`: the `strncpy` of at most 255 characters
of the demo text, whose `strlen` becomes `data_size`. -/
def aurora_ipc_receive (g : KernelState) (now : Int) (sender message : Bool) : Outcome :=
  if !sender || !message then
    { code := AURORA_ERROR_INVALID_PARAM, state := g, written := Written.nothing }
  else if !g.is_initialized then
    { code := AURORA_ERROR_NOT_INITIALIZED, state := g, written := Written.nothing }
  else
    let data : CString := "Demo message from kernel".toList.take (256 - 1)
    { code := AURORA_OK, state := g,
      written := Written.received 0
        { msg_id := 1,
          timestamp := g.get_uptime_ms now,
          data := data,
          data_size := data.length % 2 ^ 32 } }

/-- The text that the format of `aurora_demo_kernel_call` produces before
truncation. -/
def demo_format (input : CString) (uptime_ms count : Nat) : CString :=
  "Aurora Kernel Response: '".toList ++ input ++ "' [uptime: ".toList ++
    (Nat.repr uptime_ms).toList ++ " ms, threads: ".toList ++
    (Nat.repr count).toList ++ "]".toList

/-- The function `aurora_demo_kernel_call`; `snprintf` keeps the first
`output_size - 1` characters of the formatted text. -/
def aurora_demo_kernel_call (g : KernelState) (now : Int) (input : Option CString)
    (output : Bool) (output_size : Nat) : Outcome :=
  match input with
  | none => { code := AURORA_ERROR_INVALID_PARAM, state := g, written := Written.nothing }
  | some inp =>
    if !output || output_size = 0 then
      { code := AURORA_ERROR_INVALID_PARAM, state := g, written := Written.nothing }
    else if !g.is_initialized then
      { code := AURORA_ERROR_NOT_INITIALIZED, state := g, written := Written.nothing }
    else
      { code := AURORA_OK, state := g,
        written := Written.output
          ((demo_format inp (g.get_uptime_ms now) g.get_active_thread_count).take
            (output_size - 1)) }

/-- The function `aurora_get_version_string`: the text left in the static
buffer of 32 bytes. -/
def aurora_get_version_string : CString :=
  ((Nat.repr AURORA_ABI_VERSION_MAJOR).toList ++ ".".toList ++
    (Nat.repr AURORA_ABI_VERSION_MINOR).toList ++ ".".toList ++
    (Nat.repr AURORA_ABI_VERSION_PATCH).toList).take (32 - 1)

/-! ## Sequences of boundary calls -/

/-- A call of one boundary function together with its arguments (and the clock
reading the call takes, where it reads the clock). -/
inductive Call where
  | kernel_init (now : Int)
  | kernel_shutdown
  | kernel_get_status (now : Int) (status : Bool)
  | thread_create (thread_id : Bool) (name : Option CString)
  | thread_destroy (thread_id : Nat)
  | thread_get_count (count : Bool)
  | ipc_send (target : Nat) (message : Option aurora_message_t)
  | ipc_receive (now : Int) (sender message : Bool)
  | demo_kernel_call (now : Int) (input : Option CString) (output : Bool) (output_size : Nat)
  deriving DecidableEq, Repr

/-- The outcome of one boundary call made in state `g`. -/
def call (g : KernelState) : Call → Outcome
  | Call.kernel_init now => aurora_kernel_init g now
  | Call.kernel_shutdown => aurora_kernel_shutdown g
  | Call.kernel_get_status now status => aurora_kernel_get_status g now status
  | Call.thread_create thread_id name => aurora_thread_create g thread_id name
  | Call.thread_destroy thread_id => aurora_thread_destroy g thread_id
  | Call.thread_get_count count => aurora_thread_get_count g count
  | Call.ipc_send target message => aurora_ipc_send g target message
  | Call.ipc_receive now sender message => aurora_ipc_receive g now sender message
  | Call.demo_kernel_call now input output output_size =>
    aurora_demo_kernel_call g now input output output_size

/-- The state of `g_kernel` after a sequence of boundary calls. -/
def run (g : KernelState) : List Call → KernelState
  | [] => g
  | c :: cs => run (call g c).state cs

/-- The outcomes of a sequence of boundary calls, in order. -/
def trace (g : KernelState) : List Call → List Outcome
  | [] => []
  | c :: cs => call g c :: trace (call g c).state cs

/-- The thread ids handed out by the calls of a sequence, in order. -/
def issued (g : KernelState) (cs : List Call) : List Nat :=
  (trace g cs).filterMap fun o =>
    match o.written with
    | Written.thread_id id => some id
    | _ => none

/-! ## Counting and test sequences -/

/-- The number of calls in a sequence that reach `KernelState::create_thread`,
that is, the calls of `aurora_thread_create` with a `thread_id` pointer that is
not null. -/
def create_calls : List Call → Nat
  | [] => 0
  | Call.thread_create true _ :: cs => create_calls cs + 1
  | _ :: cs => create_calls cs

/-- The number of `aurora_thread_destroy` calls in a sequence run from `g` that
return `AURORA_OK`. -/
def destroys_ok (g : KernelState) : List Call → Nat
  | [] => 0
  | Call.thread_destroy thread_id :: cs =>
    (if (call g (Call.thread_destroy thread_id)).code = AURORA_OK then 1 else 0) +
      destroys_ok (call g (Call.thread_destroy thread_id)).state cs
  | c :: cs => destroys_ok (call g c).state cs

/-- The sequence that creates a thread and destroys it at once, `k` times, for
the ids `first`, `first + 1`, ... -/
def churn : Nat → Nat → List Call
  | _, 0 => []
  | first, k + 1 =>
    Call.thread_create true none :: Call.thread_destroy first :: churn (first + 1) k

/-- A sequence of calls after which the id counter has wrapped: `initialize`,
one creation (id 1, kept), `2 ^ 32 - 2` creations each destroyed at once (ids 2
to `2 ^ 32 - 1`), and two more creations (ids 0 and 1). -/
def calls_wrapping : List Call :=
  Call.kernel_init 0 :: Call.thread_create true none ::
    (churn 2 4294967294 ++ [Call.thread_create true none, Call.thread_create true none])

/-- A sequence of calls after which the registry holds `2 ^ 32` records:
`2 ^ 32` creations and no destruction. -/
def calls_filling : List Call :=
  List.replicate 4294967296 (Call.thread_create true none)

/-- Whether a call is a call of `aurora_ipc_send`. -/
def Call.is_send : Call → Bool
  | Call.ipc_send _ _ => true
  | _ => false

/-- A sequence of calls after which the id counter holds its last value
`2 ^ 32 - 1`: `initialize` and `2 ^ 32 - 2` creations each destroyed at once
(ids 1 to `2 ^ 32 - 2`). -/
def calls_to_last_id : List Call :=
  Call.kernel_init 0 :: churn 1 4294967294

/-! ## Calls overlapped by other threads -/

/-- The function `aurora_kernel_get_status` when other threads act on `g_kernel`
between its three accesses: `g0` is the state of `g_kernel` when the function
calls `is_initialized`, `g1` the state when it calls `get_uptime_ms`, and `g2`
the state when it calls `get_active_thread_count`. The function itself stores
nothing in `g_kernel`; the result is the code and what is stored through
`status`. -/
def aurora_kernel_get_status_overlapped (g0 g1 g2 : KernelState) (now : Int) (status : Bool) :
    aurora_error_t × Written :=
  if !status then
    (AURORA_ERROR_INVALID_PARAM, Written.nothing)
  else if !g0.is_initialized then
    (AURORA_ERROR_NOT_INITIALIZED, Written.nothing)
  else
    (AURORA_OK,
      Written.status
        { initialized := true,
          version_major := AURORA_ABI_VERSION_MAJOR,
          version_minor := AURORA_ABI_VERSION_MINOR,
          version_patch := AURORA_ABI_VERSION_PATCH,
          uptime_ms := g1.get_uptime_ms now,
          active_threads := g2.get_active_thread_count })

/-! ## Basic facts about single calls and sequences -/

theorem run_append (g : KernelState) (cs ds : List Call) :
    run g (cs ++ ds) = run (run g cs) ds := by
  induction cs generalizing g with
  | nil => rfl
  | cons c cs ih => simp [run, ih]

theorem trace_append (g : KernelState) (cs ds : List Call) :
    trace g (cs ++ ds) = trace g cs ++ trace (run g cs) ds := by
  induction cs generalizing g with
  | nil => rfl
  | cons c cs ih => simp [run, trace, ih]

theorem issued_append (g : KernelState) (cs ds : List Call) :
    issued g (cs ++ ds) = issued g cs ++ issued (run g cs) ds := by
  simp [issued, trace_append]

/-- A boundary call that does not return `AURORA_OK` leaves `g_kernel` as it
was. -/
theorem call_state_of_not_ok (g : KernelState) (c : Call)
    (h : (call g c).code ≠ AURORA_OK) : (call g c).state = g := by
  cases c <;>
    simp only [call, aurora_kernel_init, aurora_kernel_shutdown, aurora_kernel_get_status,
      aurora_thread_create, aurora_thread_destroy, aurora_thread_get_count, aurora_ipc_send,
      aurora_ipc_receive, aurora_demo_kernel_call, KernelState.initialize,
      KernelState.shutdown, KernelState.create_thread, KernelState.destroy_thread] at h ⊢ <;>
    (repeat' split) <;> simp_all

/-- Every boundary call keeps the registry empty while `g_kernel` is
uninitialized. -/
theorem call_keeps_inert (g : KernelState) (c : Call)
    (h : g.m_initialized = false → g.m_threads = []) :
    (call g c).state.m_initialized = false → (call g c).state.m_threads = [] := by
  cases c <;>
    simp only [call, aurora_kernel_init, aurora_kernel_shutdown, aurora_kernel_get_status,
      aurora_thread_create, aurora_thread_destroy, aurora_thread_get_count, aurora_ipc_send,
      aurora_ipc_receive, aurora_demo_kernel_call, KernelState.initialize,
      KernelState.shutdown, KernelState.create_thread, KernelState.destroy_thread] <;>
    (repeat' split) <;> simp_all

theorem run_keeps_inert (g : KernelState) (cs : List Call)
    (h : g.m_initialized = false → g.m_threads = []) :
    (run g cs).m_initialized = false → (run g cs).m_threads = [] := by
  induction cs generalizing g with
  | nil => exact h
  | cons c cs ih => exact ih _ (call_keeps_inert g c h)

/-- The ids handed out by `c :: cs` are those of `c` followed by those of `cs`. -/
theorem issued_cons (g : KernelState) (c : Call) (cs : List Call) :
    issued g (c :: cs) = issued g [c] ++ issued (call g c).state cs :=
  issued_append g [c] cs

/-- The five ways in which one boundary call can act on `g_kernel`. -/
theorem call_cases (g : KernelState) (c : Call) :
    ((call g c).state = g ∧ issued g [c] = []) ∨
    (g.m_initialized = false ∧ issued g [c] = [] ∧ (call g c).code = AURORA_OK ∧
      ∃ now, c = Call.kernel_init now ∧
        (call g c).state = { g with m_initialized := true, m_start_time := now }) ∨
    (g.m_initialized = true ∧ issued g [c] = [] ∧ (call g c).code = AURORA_OK ∧
      c = Call.kernel_shutdown ∧
        (call g c).state = { g with m_threads := [], m_initialized := false }) ∨
    (g.m_initialized = true ∧ issued g [c] = [g.m_next_thread_id] ∧
      (call g c).code = AURORA_OK ∧
      ∃ name, c = Call.thread_create true name ∧
        (call g c).state =
          { g with m_next_thread_id := (g.m_next_thread_id + 1) % 2 ^ 32,
                   m_threads := g.m_threads ++
                    [{ id := g.m_next_thread_id, name := Thread.copy_name name,
                       active := true }] }) ∨
    (g.m_initialized = true ∧ issued g [c] = [] ∧ (call g c).code = AURORA_OK ∧
      ∃ thread_id ts, c = Call.thread_destroy thread_id ∧
        KernelState.destroy_loop thread_id g.m_threads = some ts ∧
        (call g c).state = { g with m_threads := ts }) := by
  cases c with
  | kernel_init now =>
    cases h : g.m_initialized <;>
      simp [issued, trace, call, aurora_kernel_init, KernelState.initialize, h]
  | kernel_shutdown =>
    cases h : g.m_initialized <;>
      simp [issued, trace, call, aurora_kernel_shutdown, KernelState.shutdown, h]
  | kernel_get_status now status =>
    left
    simp only [issued, trace, call, aurora_kernel_get_status]
    (repeat' split) <;> simp
  | thread_create thread_id name =>
    cases h : g.m_initialized <;> cases thread_id <;>
      simp [issued, trace, call, aurora_thread_create, KernelState.create_thread, h]
  | thread_destroy thread_id =>
    cases h : g.m_initialized
    · simp [issued, trace, call, aurora_thread_destroy, KernelState.destroy_thread, h]
    · cases hl : KernelState.destroy_loop thread_id g.m_threads <;>
        simp [issued, trace, call, aurora_thread_destroy, KernelState.destroy_thread, h, hl]
  | thread_get_count count =>
    left
    simp only [issued, trace, call, aurora_thread_get_count]
    (repeat' split) <;> simp
  | ipc_send target message =>
    left
    simp only [issued, trace, call, aurora_ipc_send]
    (repeat' split) <;> simp
  | ipc_receive now sender message =>
    left
    simp only [issued, trace, call, aurora_ipc_receive]
    (repeat' split) <;> simp
  | demo_kernel_call now input output output_size =>
    left
    simp only [issued, trace, call, aurora_demo_kernel_call]
    (repeat' split) <;> simp

/-! ### The erasing loop of `destroy_thread` -/

theorem destroy_loop_eq_none_iff (thread_id : Nat) (l : List Thread) :
    KernelState.destroy_loop thread_id l = none ↔ ∀ t ∈ l, t.id ≠ thread_id := by
  induction l with
  | nil => simp [KernelState.destroy_loop]
  | cons t ts ih =>
    by_cases h : t.id = thread_id
    · simp [KernelState.destroy_loop, h]
    · cases hl : KernelState.destroy_loop thread_id ts <;>
        simp [KernelState.destroy_loop, h, hl] <;> simp [hl] at ih <;> exact ih

theorem destroy_loop_some (thread_id : Nat) (l ts : List Thread)
    (h : KernelState.destroy_loop thread_id l = some ts) :
    ts.length + 1 = l.length ∧ ts.Sublist l ∧ ∃ t ∈ l, t.id = thread_id := by
  induction l generalizing ts with
  | nil => simp [KernelState.destroy_loop] at h
  | cons t l ih =>
    by_cases ht : t.id = thread_id
    · simp [KernelState.destroy_loop, ht] at h
      subst h
      exact ⟨rfl, List.sublist_cons_self t l, t, List.mem_cons_self t l, ht⟩
    · cases hl : KernelState.destroy_loop thread_id l with
      | none => simp [KernelState.destroy_loop, ht, hl] at h
      | some ts1 =>
        simp [KernelState.destroy_loop, ht, hl] at h
        subst h
        obtain ⟨h1, h2, u, hu, hu2⟩ := ih ts1 hl
        exact ⟨by simp [h1], h2.cons₂ t, u, List.mem_cons_of_mem t hu, hu2⟩

/-- In a registry without repeated ids, the erased id is gone afterwards. -/
theorem destroy_loop_some_not_mem (thread_id : Nat) (l ts : List Thread)
    (hn : (l.map Thread.id).Nodup)
    (h : KernelState.destroy_loop thread_id l = some ts) :
    ∀ t ∈ ts, t.id ≠ thread_id := by
  induction l generalizing ts with
  | nil => simp [KernelState.destroy_loop] at h
  | cons t l ih =>
    simp only [List.map_cons, List.nodup_cons, List.mem_map, not_exists, not_and] at hn
    by_cases ht : t.id = thread_id
    · simp [KernelState.destroy_loop, ht] at h
      subst h
      intro u hu hu2
      exact hn.1 u hu (hu2.trans ht.symm)
    · cases hl : KernelState.destroy_loop thread_id l with
      | none => simp [KernelState.destroy_loop, ht, hl] at h
      | some ts1 =>
        simp [KernelState.destroy_loop, ht, hl] at h
        subst h
        intro u hu
        rcases List.mem_cons.mp hu with rfl | hu
        · exact ht
        · exact ih ts1 hn.2 hl u hu

/-- The loop erases a record appended at the end when no earlier record has its
id. -/
theorem destroy_loop_append_last (l : List Thread) (t : Thread)
    (h : ∀ u ∈ l, u.id ≠ t.id) :
    KernelState.destroy_loop t.id (l ++ [t]) = some l := by
  induction l with
  | nil => simp [KernelState.destroy_loop]
  | cons u l ih =>
    have hu : u.id ≠ t.id := h u (List.mem_cons_self u l)
    have := ih (fun v hv => h v (List.mem_cons_of_mem u hv))
    simp [KernelState.destroy_loop, hu, this]

/-! ### Invariants of sequences -/

/-- Every id in the registry after a sequence was in the registry before it or
was handed out by a call of the sequence. -/
theorem run_ids_subset (cs : List Call) (g : KernelState) :
    ∀ t ∈ (run g cs).m_threads,
      (∃ u ∈ g.m_threads, u.id = t.id) ∨ t.id ∈ issued g cs := by
  induction cs generalizing g with
  | nil => intro t ht; exact Or.inl ⟨t, ht, rfl⟩
  | cons c cs ih =>
    intro t ht
    rw [issued_cons]
    have h1 := ih (call g c).state t ht
    rcases h1 with ⟨u, hu, hut⟩ | h1
    · rcases call_cases g c with ⟨hs, _⟩ | ⟨_, _, _, now, _, hs⟩ | ⟨_, _, _, _, hs⟩ |
        ⟨_, hi, _, name, _, hs⟩ | ⟨_, _, _, thread_id, ts, _, hl, hs⟩
      · rw [hs] at hu; exact Or.inl ⟨u, hu, hut⟩
      · rw [hs] at hu; exact Or.inl ⟨u, hu, hut⟩
      · rw [hs] at hu; simp at hu
      · rw [hs] at hu
        simp only [List.mem_append, List.mem_singleton] at hu
        rcases hu with hu | hu
        · exact Or.inl ⟨u, hu, hut⟩
        · right
          rw [hi, ← hut, hu]
          simp
      · rw [hs] at hu
        exact Or.inl ⟨u, (destroy_loop_some thread_id _ ts hl).2.1.subset hu, hut⟩
    · exact Or.inr (List.mem_append_right _ h1)

/-- While fewer than `2 ^ 32` ids have been handed out (`n` before the sequence),
the counter is one more than their number, the registry holds ids between 1 and
that number without repetition, and the ids handed out are consecutive. -/
theorem run_counted (cs : List Call) (g : KernelState) (n : Nat)
    (hnext : g.m_next_thread_id = (n + 1) % 2 ^ 32)
    (hrange : ∀ t ∈ g.m_threads, 1 ≤ t.id ∧ t.id ≤ n)
    (hnodup : (g.m_threads.map Thread.id).Nodup)
    (hbound : n + (issued g cs).length < 2 ^ 32) :
    (run g cs).m_next_thread_id = (n + (issued g cs).length + 1) % 2 ^ 32 ∧
      (∀ t ∈ (run g cs).m_threads, 1 ≤ t.id ∧ t.id ≤ n + (issued g cs).length) ∧
      ((run g cs).m_threads.map Thread.id).Nodup ∧
      issued g cs = List.range' (n + 1) (issued g cs).length := by
  induction cs generalizing g n with
  | nil => simpa [run, issued, trace] using ⟨hnext, hrange, hnodup⟩
  | cons c cs ih =>
    rw [issued_cons] at hbound ⊢
    simp only [run]
    rcases call_cases g c with ⟨hs, hi⟩ | ⟨_, hi, _, now, _, hs⟩ | ⟨_, hi, _, _, hs⟩ |
      ⟨_, hi, _, name, _, hs⟩ | ⟨_, hi, _, thread_id, ts, _, hl, hs⟩
    · rw [hi] at hbound ⊢
      rw [hs] at hbound ⊢
      simpa using ih g n hnext hrange hnodup (by simpa using hbound)
    · rw [hi] at hbound ⊢
      have := ih (call g c).state n (by rw [hs]; exact hnext) (by rw [hs]; exact hrange)
        (by rw [hs]; exact hnodup) (by simpa using hbound)
      simpa using this
    · rw [hi] at hbound ⊢
      have := ih (call g c).state n (by rw [hs]; exact hnext) (by rw [hs]; simp)
        (by rw [hs]; simp) (by simpa using hbound)
      simpa using this
    · rw [hi] at hbound ⊢
      simp only [List.length_append, List.length_singleton] at hbound ⊢
      have hn : n + 1 < 2 ^ 32 := by omega
      have hid : g.m_next_thread_id = n + 1 := by rw [hnext, Nat.mod_eq_of_lt hn]
      have := ih (call g c).state (n + 1)
        (by rw [hs]; simp only [hid])
        (by
          rw [hs]
          intro t ht
          simp only [List.mem_append, List.mem_singleton] at ht
          rcases ht with ht | ht
          · have := hrange t ht
            omega
          · subst ht
            simp only [hid]
            omega)
        (by
          rw [hs]
          simp only [List.map_append, List.map_cons, List.map_nil]
          refine List.Nodup.append hnodup (List.nodup_singleton _) ?_
          simp only [List.disjoint_singleton, List.mem_map, not_exists, not_and]
          intro t ht
          have := hrange t ht
          omega)
        (by omega)
      obtain ⟨h1, h2, h3, h4⟩ := this
      refine ⟨?_, ?_, h3, ?_⟩
      · rw [h1]; congr 1; omega
      · intro t ht
        have := h2 t ht
        omega
      · rw [h4, hid]
        simp only [List.length_range', List.singleton_append]
        rw [show 1 + (issued (call g c).state cs).length
          = (issued (call g c).state cs).length + 1 by omega]
        rfl
    · rw [hi] at hbound ⊢
      have hsub := (destroy_loop_some thread_id _ ts hl).2.1
      have := ih (call g c).state n (by rw [hs]; exact hnext)
        (by rw [hs]; exact fun t ht => hrange t (hsub.subset ht))
        (by rw [hs]; exact hnodup.sublist (hsub.map Thread.id)) (by simpa using hbound)
      simpa using this

/-- While fewer than `2 ^ 32` ids have been handed out, an id that was handed
out earlier and is no longer registered never comes back. -/
theorem run_stays_gone (cs : List Call) (g : KernelState) (n : Nat)
    (thread_id : Nat)
    (hnext : g.m_next_thread_id = (n + 1) % 2 ^ 32)
    (hle : thread_id ≤ n)
    (hgone : ∀ t ∈ g.m_threads, t.id ≠ thread_id)
    (hbound : n + (issued g cs).length < 2 ^ 32) :
    ∀ t ∈ (run g cs).m_threads, t.id ≠ thread_id := by
  induction cs generalizing g n with
  | nil => simpa [run] using hgone
  | cons c cs ih =>
    rw [issued_cons] at hbound
    simp only [run]
    rcases call_cases g c with ⟨hs, hi⟩ | ⟨_, hi, _, now, _, hs⟩ | ⟨_, hi, _, _, hs⟩ |
      ⟨_, hi, _, name, _, hs⟩ | ⟨_, hi, _, tid, ts, _, hl, hs⟩
    · rw [hi] at hbound
      rw [hs] at hbound ⊢
      exact ih g n hnext hle hgone (by simpa using hbound)
    · rw [hi] at hbound
      exact ih (call g c).state n (by rw [hs]; exact hnext) hle (by rw [hs]; exact hgone)
        (by simpa using hbound)
    · rw [hi] at hbound
      exact ih (call g c).state n (by rw [hs]; exact hnext) hle (by rw [hs]; simp)
        (by simpa using hbound)
    · rw [hi] at hbound
      simp only [List.length_append, List.length_singleton] at hbound
      have hn : n + 1 < 2 ^ 32 := by omega
      have hid : g.m_next_thread_id = n + 1 := by rw [hnext, Nat.mod_eq_of_lt hn]
      refine ih (call g c).state (n + 1) (by rw [hs]; simp only [hid]) (by omega) ?_
        (by omega)
      rw [hs]
      intro t ht
      simp only [List.mem_append, List.mem_singleton] at ht
      rcases ht with ht | ht
      · exact hgone t ht
      · subst ht
        simp only [hid]
        omega
    · rw [hi] at hbound
      have hsub := (destroy_loop_some tid _ ts hl).2.1
      exact ih (call g c).state n (by rw [hs]; exact hnext) hle
        (by rw [hs]; exact fun t ht => hgone t (hsub.subset ht)) (by simpa using hbound)

/-! ### Runs of creations and destructions -/

/-- Consecutive successful creations hand out consecutive ids, as long as the
counter does not wrap. -/
theorem trace_creates (names : List (Option CString)) (g : KernelState)
    (hinit : g.m_initialized = true)
    (hlt : g.m_next_thread_id < 2 ^ 32)
    (hbound : g.m_next_thread_id + names.length ≤ 2 ^ 32) :
    (trace g (names.map (Call.thread_create true))).map (fun o => (o.code, o.written))
        = (List.range' g.m_next_thread_id names.length).map
            (fun i => (AURORA_OK, Written.thread_id i)) ∧
      (run g (names.map (Call.thread_create true))).m_initialized = true ∧
      (run g (names.map (Call.thread_create true))).m_next_thread_id
        = (g.m_next_thread_id + names.length) % 2 ^ 32 := by
  induction names generalizing g with
  | nil =>
    simp only [List.map_nil, trace, run, List.length_nil, List.range', Nat.add_zero, hinit,
      true_and]
    exact (Nat.mod_eq_of_lt hlt).symm
  | cons name names ih =>
    simp only [List.length_cons] at hbound
    have hc : call g (Call.thread_create true name) =
        ⟨AURORA_OK,
          { g with m_next_thread_id := (g.m_next_thread_id + 1) % 2 ^ 32,
                   m_threads := g.m_threads ++
                    [{ id := g.m_next_thread_id, name := Thread.copy_name name,
                       active := true }] },
          Written.thread_id g.m_next_thread_id⟩ := by
      simp [call, aurora_thread_create, KernelState.create_thread, hinit]
    have hmod : (g.m_next_thread_id + 1) % 2 ^ 32 ≤ g.m_next_thread_id + 1 :=
      Nat.mod_le _ _
    obtain ⟨h1, h2, h3⟩ := ih (call g (Call.thread_create true name)).state
      (by rw [hc]; exact hinit) (by rw [hc]; exact Nat.mod_lt _ (by norm_num))
      (by rw [hc]; simp only; omega)
    simp only [List.map_cons, trace, run, List.length_cons, List.range'_succ]
    refine ⟨?_, h2, ?_⟩
    · rw [h1, hc]
      simp only [List.cons.injEq, true_and]
      cases names with
      | nil => simp
      | cons name2 names =>
        simp only [List.length_cons] at hbound
        rw [Nat.mod_eq_of_lt (by omega)]
    · rw [h3, hc]
      simp only
      omega

/-- Destructions change neither the lifecycle flag nor the id counter. -/
theorem run_destroys (ds : List Nat) (g : KernelState) :
    (run g (ds.map Call.thread_destroy)).m_initialized = g.m_initialized ∧
      (run g (ds.map Call.thread_destroy)).m_next_thread_id = g.m_next_thread_id := by
  induction ds generalizing g with
  | nil => simp [run]
  | cons d ds ih =>
    simp only [List.map_cons, run]
    obtain ⟨h1, h2⟩ := ih (call g (Call.thread_destroy d)).state
    rw [h1, h2]
    simp only [call, aurora_thread_destroy, KernelState.destroy_thread]
    (repeat' split) <;> simp

/-- Without a shutdown an initialized kernel stays initialized, and the registry
size is the size before, plus the creations, minus the successful
destructions. -/
theorem run_size_accounting (cs : List Call) (g : KernelState)
    (hinit : g.m_initialized = true) (hns : Call.kernel_shutdown ∉ cs) :
    (run g cs).m_initialized = true ∧
      (run g cs).m_threads.length + destroys_ok g cs
        = g.m_threads.length + create_calls cs := by
  induction cs generalizing g with
  | nil => simp [run, destroys_ok, create_calls, hinit]
  | cons c cs ih =>
    simp only [List.mem_cons, not_or] at hns
    obtain ⟨hne, hns⟩ := hns
    cases c with
    | kernel_init now =>
      have hc : (call g (Call.kernel_init now)).state = g := by
        simp [call, aurora_kernel_init, KernelState.initialize, hinit]
      simp only [run, destroys_ok, create_calls, hc]
      exact ih g hinit hns
    | kernel_shutdown => exact absurd rfl hne
    | kernel_get_status now status =>
      have hc : (call g (Call.kernel_get_status now status)).state = g := by
        simp only [call, aurora_kernel_get_status]
        (repeat' split) <;> rfl
      simp only [run, destroys_ok, create_calls, hc]
      exact ih g hinit hns
    | thread_create thread_id name =>
      cases thread_id with
      | false =>
        have hc : (call g (Call.thread_create false name)).state = g := by
          simp [call, aurora_thread_create]
        simp only [run, destroys_ok, create_calls, hc]
        exact ih g hinit hns
      | true =>
        have hc : (call g (Call.thread_create true name)).state =
            { g with m_next_thread_id := (g.m_next_thread_id + 1) % 2 ^ 32,
                     m_threads := g.m_threads ++
                      [{ id := g.m_next_thread_id, name := Thread.copy_name name,
                         active := true }] } := by
          simp [call, aurora_thread_create, KernelState.create_thread, hinit]
        simp only [run, destroys_ok, create_calls, hc]
        obtain ⟨h1, h2⟩ := ih _ (show KernelState.m_initialized
          { g with m_next_thread_id := (g.m_next_thread_id + 1) % 2 ^ 32,
                   m_threads := g.m_threads ++
                    [{ id := g.m_next_thread_id, name := Thread.copy_name name,
                       active := true }] } = true from hinit) hns
        refine ⟨h1, ?_⟩
        rw [h2]
        simp only [List.length_append, List.length_singleton]
        omega
    | thread_destroy thread_id =>
      cases hl : KernelState.destroy_loop thread_id g.m_threads with
      | none =>
        have hc : call g (Call.thread_destroy thread_id) =
            ⟨AURORA_ERROR_INVALID_PARAM, g, Written.nothing⟩ := by
          simp [call, aurora_thread_destroy, KernelState.destroy_thread, hinit, hl]
        simp only [run, destroys_ok, create_calls, hc]
        simpa using ih g hinit hns
      | some ts =>
        have hc : call g (Call.thread_destroy thread_id) =
            ⟨AURORA_OK, { g with m_threads := ts }, Written.nothing⟩ := by
          simp [call, aurora_thread_destroy, KernelState.destroy_thread, hinit, hl]
        simp only [run, destroys_ok, create_calls, hc]
        obtain ⟨h1, h2⟩ := ih _ (show KernelState.m_initialized
          { g with m_threads := ts } = true from hinit) hns
        refine ⟨h1, ?_⟩
        have hlen := (destroy_loop_some thread_id _ ts hl).1
        simp only [if_true] at h2 ⊢
        omega
    | thread_get_count count =>
      have hc : (call g (Call.thread_get_count count)).state = g := by
        simp only [call, aurora_thread_get_count]
        (repeat' split) <;> rfl
      simp only [run, destroys_ok, create_calls, hc]
      exact ih g hinit hns
    | ipc_send target message =>
      have hc : (call g (Call.ipc_send target message)).state = g := by
        simp only [call, aurora_ipc_send]
        (repeat' split) <;> rfl
      simp only [run, destroys_ok, create_calls, hc]
      exact ih g hinit hns
    | ipc_receive now sender message =>
      have hc : (call g (Call.ipc_receive now sender message)).state = g := by
        simp only [call, aurora_ipc_receive]
        (repeat' split) <;> rfl
      simp only [run, destroys_ok, create_calls, hc]
      exact ih g hinit hns
    | demo_kernel_call now input output output_size =>
      have hc : (call g (Call.demo_kernel_call now input output output_size)).state = g := by
        simp only [call, aurora_demo_kernel_call]
        (repeat' split) <;> rfl
      simp only [run, destroys_ok, create_calls, hc]
      exact ih g hinit hns

/-- A run of `churn` leaves the registry as it was and advances the counter. -/
theorem run_churn (k first : Nat) (g : KernelState)
    (hinit : g.m_initialized = true)
    (hnext : g.m_next_thread_id = first % 2 ^ 32)
    (hbound : first + k ≤ 2 ^ 32)
    (hlt : ∀ t ∈ g.m_threads, t.id < first) :
    run g (churn first k) = { g with m_next_thread_id := (first + k) % 2 ^ 32 } := by
  induction k generalizing first g with
  | zero =>
    simp only [churn, run, Nat.add_zero]
    rw [← hnext]
  | succ k ih =>
    have hf : first < 2 ^ 32 := by omega
    have hid : g.m_next_thread_id = first := by rw [hnext, Nat.mod_eq_of_lt hf]
    have hc : (call g (Call.thread_create true none)).state =
        { g with m_next_thread_id := (first + 1) % 2 ^ 32,
                 m_threads := g.m_threads ++
                  [{ id := first, name := Thread.copy_name none, active := true }] } := by
      simp [call, aurora_thread_create, KernelState.create_thread, hinit, hid]
    have hl : KernelState.destroy_loop first
        (g.m_threads ++ [{ id := first, name := Thread.copy_name none, active := true }])
        = some g.m_threads :=
      destroy_loop_append_last g.m_threads
        { id := first, name := Thread.copy_name none, active := true }
        (fun u hu => Nat.ne_of_lt (hlt u hu))
    have hd : (call (call g (Call.thread_create true none)).state
        (Call.thread_destroy first)).state =
        { g with m_next_thread_id := (first + 1) % 2 ^ 32 } := by
      rw [hc]
      simp [call, aurora_thread_destroy, KernelState.destroy_thread, hinit, hl]
    simp only [churn, run]
    rw [hd, ih (first + 1) ⟨g.m_initialized, g.m_start_time, g.m_threads, (first + 1) % 2 ^ 32⟩
      hinit rfl (by omega) (fun t ht => Nat.lt_succ_of_lt (hlt t ht))]
    simp only [KernelState.mk.injEq, true_and]
    congr 1
    omega

/-- A run of `k` creations appends `k` records to the registry. -/
theorem run_replicate_create (k : Nat) (name : Option CString) (g : KernelState)
    (hinit : g.m_initialized = true) :
    (run g (List.replicate k (Call.thread_create true name))).m_initialized = true ∧
      (run g (List.replicate k (Call.thread_create true name))).m_threads.length
        = g.m_threads.length + k ∧
      create_calls (List.replicate k (Call.thread_create true name)) = k ∧
      destroys_ok g (List.replicate k (Call.thread_create true name)) = 0 := by
  induction k generalizing g with
  | zero => simp [run, create_calls, destroys_ok, hinit]
  | succ k ih =>
    have hc : (call g (Call.thread_create true name)).state =
        { g with m_next_thread_id := (g.m_next_thread_id + 1) % 2 ^ 32,
                 m_threads := g.m_threads ++
                  [{ id := g.m_next_thread_id, name := Thread.copy_name name,
                     active := true }] } := by
      simp [call, aurora_thread_create, KernelState.create_thread, hinit]
    simp only [List.replicate_succ, run, create_calls, destroys_ok, hc]
    obtain ⟨h1, h2, h3, h4⟩ := ih
      { g with m_next_thread_id := (g.m_next_thread_id + 1) % 2 ^ 32,
               m_threads := g.m_threads ++
                [{ id := g.m_next_thread_id, name := Thread.copy_name name,
                   active := true }] } hinit
    refine ⟨h1, ?_, by rw [h3], h4⟩
    rw [h2]
    simp only [List.length_append, List.length_singleton]
    omega

/-! ### Single destructions -/

theorem destroy_ok (g : KernelState) (thread_id : Nat)
    (h : (call g (Call.thread_destroy thread_id)).code = AURORA_OK) :
    g.m_initialized = true ∧
      ∃ ts, KernelState.destroy_loop thread_id g.m_threads = some ts ∧
        (call g (Call.thread_destroy thread_id)).state = { g with m_threads := ts } := by
  cases hi : g.m_initialized
  · simp [call, aurora_thread_destroy, KernelState.destroy_thread, hi] at h
  · cases hl : KernelState.destroy_loop thread_id g.m_threads with
    | none => simp [call, aurora_thread_destroy, KernelState.destroy_thread, hi, hl] at h
    | some ts =>
      exact ⟨rfl, ts, rfl, by
        simp [call, aurora_thread_destroy, KernelState.destroy_thread, hi, hl]⟩

theorem destroy_absent (g : KernelState) (thread_id : Nat)
    (hinit : g.m_initialized = true) (h : ∀ t ∈ g.m_threads, t.id ≠ thread_id) :
    aurora_thread_destroy g thread_id = ⟨AURORA_ERROR_INVALID_PARAM, g, Written.nothing⟩ := by
  have hl := (destroy_loop_eq_none_iff thread_id g.m_threads).mpr h
  simp [aurora_thread_destroy, KernelState.destroy_thread, hinit, hl]

theorem destroy_present (g : KernelState) (thread_id : Nat)
    (hinit : g.m_initialized = true) (t : Thread) (ht : t ∈ g.m_threads)
    (hid : t.id = thread_id) :
    (aurora_thread_destroy g thread_id).code = AURORA_OK := by
  cases hl : KernelState.destroy_loop thread_id g.m_threads with
  | none => exact absurd hid ((destroy_loop_eq_none_iff thread_id g.m_threads).mp hl t ht)
  | some ts => simp [aurora_thread_destroy, KernelState.destroy_thread, hinit, hl]

/-! ### The states reached by the two long sequences -/

/-- After `calls_wrapping` the registry holds the ids 1, 0, 1 and the counter
stands at 2. -/
theorem run_calls_wrapping :
    run KernelState.new calls_wrapping =
      { m_initialized := true, m_start_time := 0,
        m_threads := [⟨1, "unnamed".toList, true⟩, ⟨0, "unnamed".toList, true⟩,
          ⟨1, "unnamed".toList, true⟩],
        m_next_thread_id := 2 } := by
  have h0 : run KernelState.new [Call.kernel_init 0, Call.thread_create true none] =
      { m_initialized := true, m_start_time := 0,
        m_threads := [⟨1, "unnamed".toList, true⟩], m_next_thread_id := 2 } := by
    decide
  have h1 := run_churn 4294967294 2
    { m_initialized := true, m_start_time := 0,
      m_threads := [⟨1, "unnamed".toList, true⟩], m_next_thread_id := 2 }
    rfl (by norm_num) (by norm_num) (by simp)
  have h2 : (2 + 4294967294) % 2 ^ 32 = 0 := by norm_num
  rw [h2] at h1
  have h3 : calls_wrapping = [Call.kernel_init 0, Call.thread_create true none] ++
      (churn 2 4294967294 ++ [Call.thread_create true none, Call.thread_create true none]) :=
    rfl
  rw [h3, run_append, run_append, h0, h1]
  decide

/-- After `initialize` and `calls_filling` the registry holds `2 ^ 32`
records. -/
theorem run_calls_filling :
    (run (call KernelState.new (Call.kernel_init 0)).state calls_filling).m_threads.length
        = 4294967296 ∧
      create_calls calls_filling = 4294967296 ∧
      destroys_ok (call KernelState.new (Call.kernel_init 0)).state calls_filling = 0 := by
  have h := run_replicate_create 4294967296 none
    (call KernelState.new (Call.kernel_init 0)).state (by decide)
  refine ⟨?_, h.2.2.1, h.2.2.2⟩
  have h1 := h.2.1
  have h2 : (call KernelState.new (Call.kernel_init 0)).state.m_threads.length = 0 := by decide
  rw [h2, Nat.zero_add] at h1
  exact h1

/-! ### Further facts for single calls -/

/-- The loop erases exactly the first record with the id: the registry splits
around it. -/
theorem destroy_loop_split (thread_id : Nat) (l ts : List Thread)
    (h : KernelState.destroy_loop thread_id l = some ts) :
    ∃ l1 t l2, l = l1 ++ t :: l2 ∧ t.id = thread_id ∧ (∀ u ∈ l1, u.id ≠ thread_id) ∧
      ts = l1 ++ l2 := by
  induction l generalizing ts with
  | nil => simp [KernelState.destroy_loop] at h
  | cons t l ih =>
    by_cases ht : t.id = thread_id
    · simp [KernelState.destroy_loop, ht] at h
      subst h
      exact ⟨[], t, l, rfl, ht, by simp, rfl⟩
    · cases hl : KernelState.destroy_loop thread_id l with
      | none => simp [KernelState.destroy_loop, ht, hl] at h
      | some ts1 =>
        simp [KernelState.destroy_loop, ht, hl] at h
        subst h
        obtain ⟨l1, u, l2, h1, h2, h3, h4⟩ := ih ts1 hl
        refine ⟨t :: l1, u, l2, by rw [h1]; rfl, h2, ?_, by rw [h4]; rfl⟩
        intro v hv
        rcases List.mem_cons.mp hv with rfl | hv
        · exact ht
        · exact h3 v hv

/-- A call of `aurora_ipc_send` leaves `g_kernel` as it was, whatever its
arguments. -/
theorem call_send_state (g : KernelState) (c : Call) (h : c.is_send = true) :
    (call g c).state = g := by
  cases c <;> simp [Call.is_send] at h
  simp only [call, aurora_ipc_send]
  (repeat' split) <;> rfl

/-- The state after a sequence of calls does not depend on the calls of
`aurora_ipc_send` in it. -/
theorem run_without_sends (cs : List Call) (g : KernelState) :
    run g cs = run g (cs.filter fun c => !c.is_send) := by
  induction cs generalizing g with
  | nil => rfl
  | cons c cs ih =>
    cases hc : c.is_send
    · simp only [List.filter_cons, hc, Bool.not_false, if_true, run]
      exact ih _
    · simp only [List.filter_cons, hc, Bool.not_true, run, call_send_state g c hc]
      simpa using ih g

/-- A run of creations keeps the start time. -/
theorem run_replicate_create_start (k : Nat) (name : Option CString) (g : KernelState) :
    (run g (List.replicate k (Call.thread_create true name))).m_start_time
      = g.m_start_time := by
  induction k generalizing g with
  | zero => rfl
  | succ k ih =>
    simp only [List.replicate_succ, run]
    rw [ih]
    simp only [call, aurora_thread_create, KernelState.create_thread]
    (repeat' split) <;> rfl

/-- The registry that the loop leaves is the registry with the first record of
that id erased. -/
theorem destroy_loop_eq_eraseP (thread_id : Nat) (l ts : List Thread)
    (h : KernelState.destroy_loop thread_id l = some ts) :
    ts = l.eraseP (fun u => u.id == thread_id) := by
  obtain ⟨l1, t, l2, h1, h2, h3, h4⟩ := destroy_loop_split thread_id l ts h
  rw [h1, h4, List.eraseP_append_right _ (by simpa using h3),
    List.eraseP_cons_of_pos (by simpa using h2)]

/-- Without interference the overlapped form of `aurora_kernel_get_status` is
the function itself. -/
theorem get_status_overlapped_same (g : KernelState) (now : Int) (status : Bool) :
    aurora_kernel_get_status_overlapped g g g now status
      = ((aurora_kernel_get_status g now status).code,
          (aurora_kernel_get_status g now status).written) := by
  simp only [aurora_kernel_get_status_overlapped, aurora_kernel_get_status]
  (repeat' split) <;> rfl

/-- After `calls_to_last_id` the registry is empty and the counter stands at
`2 ^ 32 - 1`. -/
theorem run_calls_to_last_id :
    run KernelState.new calls_to_last_id =
      { m_initialized := true, m_start_time := 0, m_threads := [],
        m_next_thread_id := 4294967295 } := by
  have h0 : run KernelState.new [Call.kernel_init 0] =
      { m_initialized := true, m_start_time := 0, m_threads := [], m_next_thread_id := 1 } := by
    decide
  have h1 := run_churn 4294967294 1
    { m_initialized := true, m_start_time := 0, m_threads := [], m_next_thread_id := 1 }
    rfl (by norm_num) (by norm_num) (by simp)
  have h2 : (1 + 4294967294) % 2 ^ 32 = 4294967295 := by norm_num
  rw [h2] at h1
  have h3 : calls_to_last_id = [Call.kernel_init 0] ++ churn 1 4294967294 := rfl
  rw [h3, run_append, h0, h1]

/-- The millisecond cast of a duration of `d` ticks, for `d` between 0 and the
largest 64-bit tick count: the whole number of milliseconds in `d`. -/
theorem ms_cast_elapsed (d : Int) (h0 : 0 ≤ d) (h63 : d < 2 ^ 63) :
    ((d.tdiv 1000000) % (2 ^ 64 : Int)).toNat = (d / 1000000).toNat := by
  rw [Int.tdiv_eq_ediv h0 (by norm_num),
    Int.emod_eq_of_lt (Int.ediv_nonneg h0 (by norm_num))]
  have h1 : d / 1000000 ≤ d := Int.ediv_le_self _ h0
  have h2 : (2 : Int) ^ 63 < 2 ^ 64 := by norm_num
  omega

/-- C1 (lifecycle gate). In every state with `m_initialized = false`, each of
`aurora_kernel_get_status`, `aurora_thread_create`, `aurora_thread_destroy`,
`aurora_ipc_send`, `aurora_ipc_receive` and `aurora_demo_kernel_call`, called
with every pointer argument present and `output_size > 0`, returns
`AURORA_ERROR_NOT_INITIALIZED`, stores nothing and leaves the whole kernel
state as it was. -/
theorem C1_lifecycle_gate (g : KernelState) (now : Int) (name : Option CString)
    (thread_id target : Nat) (message : aurora_message_t) (input : CString)
    (output_size : Nat) (hg : g.m_initialized = false) (hsize : 0 < output_size) :
    aurora_kernel_get_status g now true
        = ⟨AURORA_ERROR_NOT_INITIALIZED, g, Written.nothing⟩ ∧
      aurora_thread_create g true name
        = ⟨AURORA_ERROR_NOT_INITIALIZED, g, Written.nothing⟩ ∧
      aurora_thread_destroy g thread_id
        = ⟨AURORA_ERROR_NOT_INITIALIZED, g, Written.nothing⟩ ∧
      aurora_ipc_send g target (some message)
        = ⟨AURORA_ERROR_NOT_INITIALIZED, g, Written.nothing⟩ ∧
      aurora_ipc_receive g now true true
        = ⟨AURORA_ERROR_NOT_INITIALIZED, g, Written.nothing⟩ ∧
      aurora_demo_kernel_call g now (some input) true output_size
        = ⟨AURORA_ERROR_NOT_INITIALIZED, g, Written.nothing⟩ := by
  have hsz : output_size ≠ 0 := Nat.pos_iff_ne_zero.mp hsize
  simp [aurora_kernel_get_status, aurora_thread_create, aurora_thread_destroy,
    aurora_ipc_send, aurora_ipc_receive, aurora_demo_kernel_call,
    KernelState.is_initialized, KernelState.create_thread, KernelState.destroy_thread,
    hg, hsz]

/-- Witness of C1 in the fresh state, before any `initialize`. -/
theorem C1_lifecycle_gate_witness :
    KernelState.new.m_initialized = false ∧ 0 < 16 ∧
      aurora_kernel_get_status KernelState.new 9 true
        = ⟨AURORA_ERROR_NOT_INITIALIZED, KernelState.new, Written.nothing⟩ ∧
      aurora_thread_create KernelState.new true (some "a".toList)
        = ⟨AURORA_ERROR_NOT_INITIALIZED, KernelState.new, Written.nothing⟩ ∧
      aurora_thread_destroy KernelState.new 1
        = ⟨AURORA_ERROR_NOT_INITIALIZED, KernelState.new, Written.nothing⟩ ∧
      aurora_ipc_send KernelState.new 1 (some ⟨42, 0, "m".toList, 1⟩)
        = ⟨AURORA_ERROR_NOT_INITIALIZED, KernelState.new, Written.nothing⟩ ∧
      aurora_ipc_receive KernelState.new 9 true true
        = ⟨AURORA_ERROR_NOT_INITIALIZED, KernelState.new, Written.nothing⟩ ∧
      aurora_demo_kernel_call KernelState.new 9 (some "X".toList) true 16
        = ⟨AURORA_ERROR_NOT_INITIALIZED, KernelState.new, Written.nothing⟩ :=
  ⟨rfl, by decide,
    C1_lifecycle_gate KernelState.new 9 (some "a".toList) 1 1 ⟨42, 0, "m".toList, 1⟩
      "X".toList 16 rfl (by decide)⟩

/-- C2 (id sequence). From the fresh state, after a successful `initialize`, for
all `N` and `M` with `N + M < 2 ^ 32`: `N` creations return `AURORA_OK` with the
ids `1..N` in order, and after any list `ds` of destructions (in particular any
subset of those ids in any order) `M` further creations return `AURORA_OK` with
the ids `N+1..N+M` in order. -/
theorem C2_id_sequence (t0 : Int) (names1 names2 : List (Option CString)) (ds : List Nat)
    (h : names1.length + names2.length < 2 ^ 32) :
    (aurora_kernel_init KernelState.new t0).code = AURORA_OK ∧
      (trace (aurora_kernel_init KernelState.new t0).state
          (names1.map (Call.thread_create true))).map (fun o => (o.code, o.written))
        = (List.range' 1 names1.length).map (fun i => (AURORA_OK, Written.thread_id i)) ∧
      (trace
          (run (aurora_kernel_init KernelState.new t0).state
            (names1.map (Call.thread_create true) ++ ds.map Call.thread_destroy))
          (names2.map (Call.thread_create true))).map (fun o => (o.code, o.written))
        = (List.range' (names1.length + 1) names2.length).map
            (fun i => (AURORA_OK, Written.thread_id i)) := by
  have hi : (aurora_kernel_init KernelState.new t0).state.m_initialized = true := rfl
  have hn : (aurora_kernel_init KernelState.new t0).state.m_next_thread_id = 1 := rfl
  obtain ⟨h1, h2, h3⟩ := trace_creates names1 (aurora_kernel_init KernelState.new t0).state hi
    (by rw [hn]; norm_num) (by rw [hn]; omega)
  rw [hn] at h1 h3
  refine ⟨rfl, h1, ?_⟩
  obtain ⟨h4, h5⟩ := run_destroys ds
    (run (aurora_kernel_init KernelState.new t0).state (names1.map (Call.thread_create true)))
  rw [← run_append] at h4 h5
  rw [h2] at h4
  rw [h3] at h5
  obtain ⟨h6, _, _⟩ := trace_creates names2 _ h4
    (by rw [h5]; exact Nat.mod_lt _ (by norm_num))
    (by rw [h5]; have := Nat.mod_le (1 + names1.length) (2 ^ 32); omega)
  rw [h6, h5]
  cases names2 with
  | nil => simp
  | cons name names2 =>
    simp only [List.length_cons] at h
    rw [Nat.mod_eq_of_lt (by omega), Nat.add_comm 1]

/-- Witness of C2: two creations, both ids destroyed in reverse order, one more
creation. -/
theorem C2_id_sequence_witness :
    [some "a".toList, none].length + [some "c".toList].length < 2 ^ 32 ∧
      (trace (aurora_kernel_init KernelState.new 0).state
          ([some "a".toList, none].map (Call.thread_create true))).map
            (fun o => (o.code, o.written))
        = [(AURORA_OK, Written.thread_id 1), (AURORA_OK, Written.thread_id 2)] ∧
      (trace
          (run (aurora_kernel_init KernelState.new 0).state
            ([some "a".toList, none].map (Call.thread_create true) ++
              [2, 1].map Call.thread_destroy))
          ([some "c".toList].map (Call.thread_create true))).map (fun o => (o.code, o.written))
        = [(AURORA_OK, Written.thread_id 3)] :=
  ⟨by decide,
    (C2_id_sequence 0 [some "a".toList, none] [some "c".toList] [2, 1] (by decide)).2.1,
    (C2_id_sequence 0 [some "a".toList, none] [some "c".toList] [2, 1] (by decide)).2.2⟩

/-- C3, counterexample. The state reached by `calls_wrapping` (a sequence of
`initialize`, `create_thread` and `destroy_thread` calls) has the registry ids
1, 0, 1: they are not pairwise distinct and one of them is not positive. -/
theorem C3_counterexample :
    (run KernelState.new calls_wrapping).m_threads.map Thread.id = [1, 0, 1] ∧
      ¬ ((run KernelState.new calls_wrapping).m_threads.map Thread.id).Nodup ∧
      ¬ ∀ t ∈ (run KernelState.new calls_wrapping).m_threads, 1 ≤ t.id := by
  rw [run_calls_wrapping]
  decide

/-- C3 as amended (id uniqueness invariant). In every state reached from the
fresh state by a sequence of boundary calls in which fewer than `2 ^ 32` thread
ids are handed out, the ids of the records in the registry are pairwise distinct
and every one of them is at least 1. -/
theorem C3_id_uniqueness_below_wrap (cs : List Call)
    (h : (issued KernelState.new cs).length < 2 ^ 32) :
    ((run KernelState.new cs).m_threads.map Thread.id).Nodup ∧
      ∀ t ∈ (run KernelState.new cs).m_threads, 1 ≤ t.id := by
  obtain ⟨_, h2, h3, _⟩ := run_counted cs KernelState.new 0 rfl (by simp [KernelState.new])
    (by simp [KernelState.new]) (by omega)
  exact ⟨h3, fun t ht => (h2 t ht).1⟩

/-- Witness of C3 as amended: three creations, one destruction, a shutdown, a
second `initialize` and one more creation. -/
theorem C3_id_uniqueness_below_wrap_witness :
    (issued KernelState.new [Call.kernel_init 0, Call.thread_create true none,
        Call.thread_create true none, Call.thread_create true none, Call.thread_destroy 2,
        Call.kernel_shutdown, Call.kernel_init 7, Call.thread_create true none]).length
        < 2 ^ 32 ∧
      ((run KernelState.new [Call.kernel_init 0, Call.thread_create true none,
        Call.thread_create true none, Call.thread_create true none, Call.thread_destroy 2,
        Call.kernel_shutdown, Call.kernel_init 7,
        Call.thread_create true none]).m_threads.map Thread.id).Nodup :=
  ⟨by decide,
    (C3_id_uniqueness_below_wrap [Call.kernel_init 0, Call.thread_create true none,
      Call.thread_create true none, Call.thread_create true none, Call.thread_destroy 2,
      Call.kernel_shutdown, Call.kernel_init 7, Call.thread_create true none]
      (by decide)).1⟩

/-- C4, counterexample. After a successful `initialize` and the `2 ^ 32`
creations of `calls_filling` (no shutdown, no destruction),
`get_active_thread_count` reports 0, while the number of creations minus the
number of successful destructions is `2 ^ 32`. -/
theorem C4_counterexample :
    (call KernelState.new (Call.kernel_init 0)).code = AURORA_OK ∧
      Call.kernel_shutdown ∉ calls_filling ∧
      (run (call KernelState.new (Call.kernel_init 0)).state
        calls_filling).get_active_thread_count = 0 ∧
      create_calls calls_filling
        - destroys_ok (call KernelState.new (Call.kernel_init 0)).state calls_filling
        = 4294967296 := by
  obtain ⟨h1, h2, h3⟩ := run_calls_filling
  refine ⟨by decide, ?_, ?_, ?_⟩
  · intro hmem
    have := List.eq_of_mem_replicate hmem
    exact Call.noConfusion this
  · rw [KernelState.get_active_thread_count, h1]
    norm_num
  · rw [h2, h3]

/-- C4 as amended (thread count accounting). For every sequence `cs` of boundary
calls without a shutdown that follows a successful `initialize` (made in a state
reached from the fresh state), at most as many destructions succeed as creations
are made, and `get_active_thread_count` reports the number of creations minus
the number of successful destructions modulo `2 ^ 32`, hence that number itself
whenever it is below `2 ^ 32`; after a successful shutdown (of any state `g`)
the value is 0. -/
theorem C4_thread_count_accounting (pre : List Call) (t0 : Int) (cs : List Call)
    (g : KernelState)
    (hinit : (call (run KernelState.new pre) (Call.kernel_init t0)).code = AURORA_OK)
    (hns : Call.kernel_shutdown ∉ cs) :
    destroys_ok (call (run KernelState.new pre) (Call.kernel_init t0)).state cs
        ≤ create_calls cs ∧
      (run (call (run KernelState.new pre) (Call.kernel_init t0)).state
          cs).get_active_thread_count
        = (create_calls cs
            - destroys_ok (call (run KernelState.new pre) (Call.kernel_init t0)).state cs)
          % 2 ^ 32 ∧
      (create_calls cs
          - destroys_ok (call (run KernelState.new pre) (Call.kernel_init t0)).state cs
          < 2 ^ 32 →
        (run (call (run KernelState.new pre) (Call.kernel_init t0)).state
            cs).get_active_thread_count
          = create_calls cs
            - destroys_ok (call (run KernelState.new pre) (Call.kernel_init t0)).state cs) ∧
      ((aurora_kernel_shutdown g).code = AURORA_OK →
        (aurora_kernel_shutdown g).state.get_active_thread_count = 0) := by
  have hpre : (run KernelState.new pre).m_initialized = false := by
    cases hp : (run KernelState.new pre).m_initialized
    · rfl
    · simp [call, aurora_kernel_init, KernelState.initialize, hp] at hinit
  have hempty := run_keeps_inert KernelState.new pre (fun _ => rfl) hpre
  have hs : (call (run KernelState.new pre) (Call.kernel_init t0)).state =
      { run KernelState.new pre with m_initialized := true, m_start_time := t0 } := by
    simp [call, aurora_kernel_init, KernelState.initialize, hpre]
  obtain ⟨_, hacc⟩ := run_size_accounting cs
    (call (run KernelState.new pre) (Call.kernel_init t0)).state (by rw [hs]) hns
  have hlen : (call (run KernelState.new pre) (Call.kernel_init t0)).state.m_threads.length
      = 0 := by
    rw [hs]
    simp [hempty]
  rw [hlen, Nat.zero_add] at hacc
  have hcount : (run (call (run KernelState.new pre) (Call.kernel_init t0)).state
      cs).m_threads.length = create_calls cs
        - destroys_ok (call (run KernelState.new pre) (Call.kernel_init t0)).state cs := by
    omega
  refine ⟨by omega, ?_, ?_, ?_⟩
  · rw [KernelState.get_active_thread_count, hcount]
  · intro hlt
    rw [KernelState.get_active_thread_count, hcount, Nat.mod_eq_of_lt hlt]
  · intro hok
    cases hg : g.m_initialized
    · simp [aurora_kernel_shutdown, KernelState.shutdown, hg] at hok
    · simp [aurora_kernel_shutdown, KernelState.shutdown, hg,
        KernelState.get_active_thread_count]

/-- Witness of C4 as amended: after an earlier session, three creations, one
failed and one successful destruction; the count is 2, and 0 after a
shutdown. -/
theorem C4_thread_count_accounting_witness :
    (call (run KernelState.new [Call.kernel_init 0, Call.thread_create true none,
        Call.kernel_shutdown]) (Call.kernel_init 3)).code = AURORA_OK ∧
      Call.kernel_shutdown ∉ [Call.thread_create true none, Call.thread_create true none,
        Call.thread_destroy 9, Call.thread_create false none, Call.thread_create true none,
        Call.thread_destroy 3, Call.kernel_init 4] ∧
      (run (call (run KernelState.new [Call.kernel_init 0, Call.thread_create true none,
          Call.kernel_shutdown]) (Call.kernel_init 3)).state
        [Call.thread_create true none, Call.thread_create true none,
          Call.thread_destroy 9, Call.thread_create false none, Call.thread_create true none,
          Call.thread_destroy 3, Call.kernel_init 4]).get_active_thread_count = 3 - 1 ∧
      (aurora_kernel_shutdown (run KernelState.new [Call.kernel_init 0,
        Call.thread_create true none])).state.get_active_thread_count = 0 :=
  ⟨by decide, by decide,
    (C4_thread_count_accounting [Call.kernel_init 0, Call.thread_create true none,
      Call.kernel_shutdown] 3
      [Call.thread_create true none, Call.thread_create true none,
        Call.thread_destroy 9, Call.thread_create false none, Call.thread_create true none,
        Call.thread_destroy 3, Call.kernel_init 4] KernelState.new
      (by decide) (by decide)).2.2.1 (by decide),
    (C4_thread_count_accounting [Call.kernel_init 0, Call.thread_create true none,
      Call.kernel_shutdown] 3
      [Call.thread_create true none, Call.thread_create true none,
        Call.thread_destroy 9, Call.thread_create false none, Call.thread_create true none,
        Call.thread_destroy 3, Call.kernel_init 4]
      (run KernelState.new [Call.kernel_init 0, Call.thread_create true none])
      (by decide) (by decide)).2.2.2 (by decide)⟩

/-- C5, counterexample. In the initialized state reached by `calls_wrapping`
the id 0 is registered (the wrapped counter handed it out), so
`destroy_thread(0)` returns `AURORA_OK` and removes a record. -/
theorem C5_counterexample :
    (run KernelState.new calls_wrapping).m_initialized = true ∧
      (aurora_thread_destroy (run KernelState.new calls_wrapping) 0).code = AURORA_OK ∧
      (aurora_thread_destroy (run KernelState.new calls_wrapping) 0).state.m_threads.length
        ≠ (run KernelState.new calls_wrapping).m_threads.length := by
  rw [run_calls_wrapping]
  decide

/-- C5 as amended (destroy of a never-issued id). In every initialized state
reached from the fresh state, `destroy_thread` of an id that no creation has
handed out returns `AURORA_ERROR_INVALID_PARAM` and leaves the whole state
(registry and id counter included) as it was. The id 0 is such an id as long as
fewer than `2 ^ 32` ids have been handed out, and every id at or above the
current counter value is such an id as long as fewer than `2 ^ 32 - 1` ids have
been handed out. -/
theorem C5_destroy_never_issued (cs : List Call) (thread_id : Nat)
    (hinit : (run KernelState.new cs).m_initialized = true) :
    (thread_id ∉ issued KernelState.new cs →
        aurora_thread_destroy (run KernelState.new cs) thread_id
          = ⟨AURORA_ERROR_INVALID_PARAM, run KernelState.new cs, Written.nothing⟩) ∧
      ((issued KernelState.new cs).length < 2 ^ 32 →
        0 ∉ issued KernelState.new cs ∧
        aurora_thread_destroy (run KernelState.new cs) 0
          = ⟨AURORA_ERROR_INVALID_PARAM, run KernelState.new cs, Written.nothing⟩) ∧
      ((issued KernelState.new cs).length < 2 ^ 32 - 1 →
        (run KernelState.new cs).m_next_thread_id ≤ thread_id →
        thread_id ∉ issued KernelState.new cs ∧
        aurora_thread_destroy (run KernelState.new cs) thread_id
          = ⟨AURORA_ERROR_INVALID_PARAM, run KernelState.new cs, Written.nothing⟩) := by
  have key : ∀ id, id ∉ issued KernelState.new cs →
      aurora_thread_destroy (run KernelState.new cs) id
        = ⟨AURORA_ERROR_INVALID_PARAM, run KernelState.new cs, Written.nothing⟩ := by
    intro id hid
    refine destroy_absent _ id hinit ?_
    intro t ht hte
    rcases run_ids_subset cs KernelState.new t ht with ⟨u, hu, _⟩ | hmem
    · simp [KernelState.new] at hu
    · exact hid (hte ▸ hmem)
  refine ⟨key thread_id, ?_, ?_⟩
  · intro hlen
    obtain ⟨_, _, _, h4⟩ := run_counted cs KernelState.new 0 rfl (by simp [KernelState.new])
      (by simp [KernelState.new]) (by omega)
    have h0 : 0 ∉ issued KernelState.new cs := by
      intro hmem
      rw [h4] at hmem
      have := List.mem_range'_1.mp hmem
      omega
    exact ⟨h0, key 0 h0⟩
  · intro hlen hge
    obtain ⟨h1, _, _, h4⟩ := run_counted cs KernelState.new 0 rfl (by simp [KernelState.new])
      (by simp [KernelState.new]) (by omega)
    rw [Nat.mod_eq_of_lt (by omega)] at h1
    have hn : thread_id ∉ issued KernelState.new cs := by
      intro hmem
      rw [h4] at hmem
      have := List.mem_range'_1.mp hmem
      omega
    exact ⟨hn, key thread_id hn⟩

/-- Witness of C5 as amended: after two creations the ids 0 and 5 have not been
handed out, and 5 is above the counter value 3. -/
theorem C5_destroy_never_issued_witness :
    (run KernelState.new [Call.kernel_init 0, Call.thread_create true none,
        Call.thread_create true none]).m_initialized = true ∧
      5 ∉ issued KernelState.new [Call.kernel_init 0, Call.thread_create true none,
        Call.thread_create true none] ∧
      (run KernelState.new [Call.kernel_init 0, Call.thread_create true none,
        Call.thread_create true none]).m_next_thread_id ≤ 5 ∧
      (aurora_thread_destroy (run KernelState.new [Call.kernel_init 0,
        Call.thread_create true none, Call.thread_create true none]) 5).code
        = AURORA_ERROR_INVALID_PARAM ∧
      (aurora_thread_destroy (run KernelState.new [Call.kernel_init 0,
        Call.thread_create true none, Call.thread_create true none]) 0).code
        = AURORA_ERROR_INVALID_PARAM ∧
      (aurora_thread_destroy (run KernelState.new [Call.kernel_init 0,
        Call.thread_create true none, Call.thread_create true none]) 5).state
        = run KernelState.new [Call.kernel_init 0, Call.thread_create true none,
            Call.thread_create true none] :=
  ⟨by decide, by decide, by decide,
    congrArg Outcome.code ((C5_destroy_never_issued [Call.kernel_init 0,
      Call.thread_create true none, Call.thread_create true none] 5 (by decide)).1
        (by decide)),
    congrArg Outcome.code ((C5_destroy_never_issued [Call.kernel_init 0,
      Call.thread_create true none, Call.thread_create true none] 5 (by decide)).2.1
        (by decide)).2,
    by rw [((C5_destroy_never_issued [Call.kernel_init 0,
      Call.thread_create true none, Call.thread_create true none] 5 (by decide)).2.2
        (by decide) (by decide)).2]⟩

/-- C6, counterexample. In the initialized state reached by `calls_wrapping`,
`destroy_thread(1)` returns `AURORA_OK`, and `destroy_thread(1)` called again
immediately afterwards returns `AURORA_OK` once more and shrinks the
registry. -/
theorem C6_counterexample :
    (run KernelState.new calls_wrapping).m_initialized = true ∧
      (call (run KernelState.new calls_wrapping) (Call.thread_destroy 1)).code = AURORA_OK ∧
      (call (run KernelState.new (calls_wrapping ++ [Call.thread_destroy 1]))
        (Call.thread_destroy 1)).code = AURORA_OK ∧
      (call (run KernelState.new (calls_wrapping ++ [Call.thread_destroy 1]))
        (Call.thread_destroy 1)).state.m_threads.length
        ≠ (run KernelState.new (calls_wrapping ++ [Call.thread_destroy 1])).m_threads.length := by
  rw [run_append, run_calls_wrapping]
  decide

/-- C6 as amended (destroy of an already-destroyed id). From the fresh state:
once `destroy_thread(id)` has returned `AURORA_OK`, a later `destroy_thread(id)`
made while the kernel is initialized, immediately afterwards or after any
sequence `mid` of intervening calls (creations and destructions in particular),
returns `AURORA_ERROR_INVALID_PARAM` and leaves the state, hence the registry
size, as it was, provided that fewer than `2 ^ 32` ids have been handed out in
total since the fresh state. -/
theorem C6_destroy_already_destroyed (pre mid : List Call) (thread_id : Nat)
    (hfirst : (call (run KernelState.new pre) (Call.thread_destroy thread_id)).code
      = AURORA_OK)
    (hlater : (run KernelState.new
      (pre ++ Call.thread_destroy thread_id :: mid)).m_initialized = true)
    (hbound : (issued KernelState.new
      (pre ++ Call.thread_destroy thread_id :: mid)).length < 2 ^ 32) :
    aurora_thread_destroy (run KernelState.new (pre ++ Call.thread_destroy thread_id :: mid))
        thread_id
      = ⟨AURORA_ERROR_INVALID_PARAM,
          run KernelState.new (pre ++ Call.thread_destroy thread_id :: mid),
          Written.nothing⟩ ∧
      (aurora_thread_destroy (run KernelState.new (pre ++ Call.thread_destroy thread_id :: mid))
        thread_id).state.m_threads.length
      = (run KernelState.new (pre ++ Call.thread_destroy thread_id :: mid)).m_threads.length := by
  obtain ⟨_, ts, hl, hs⟩ := destroy_ok _ _ hfirst
  have hi : issued (run KernelState.new pre) [Call.thread_destroy thread_id] = [] := by
    simp only [issued, trace, call, aurora_thread_destroy]
    rfl
  rw [issued_append, issued_cons, hi, List.nil_append, List.length_append] at hbound
  obtain ⟨h1, h2, h3, _⟩ := run_counted pre KernelState.new 0 rfl (by simp [KernelState.new])
    (by simp [KernelState.new]) (by omega)
  obtain ⟨_, _, u, hu, hut⟩ := destroy_loop_some thread_id _ ts hl
  have hle : thread_id ≤ 0 + (issued KernelState.new pre).length := hut ▸ (h2 u hu).2
  have hgone := run_stays_gone mid (call (run KernelState.new pre)
    (Call.thread_destroy thread_id)).state (0 + (issued KernelState.new pre).length) thread_id
    (by rw [hs]; exact h1) hle
    (by rw [hs]; exact destroy_loop_some_not_mem thread_id _ ts h3 hl)
    (by omega)
  have hrun : run KernelState.new (pre ++ Call.thread_destroy thread_id :: mid)
      = run (call (run KernelState.new pre) (Call.thread_destroy thread_id)).state mid := by
    rw [run_append]
    rfl
  rw [hrun] at hlater ⊢
  have := destroy_absent _ thread_id hlater hgone
  rw [this]
  exact ⟨rfl, rfl⟩

/-- Witness of C6 as amended: id 1 is destroyed, two creations and a
destruction follow, and id 1 is destroyed again. -/
theorem C6_destroy_already_destroyed_witness :
    (call (run KernelState.new [Call.kernel_init 0, Call.thread_create true none,
        Call.thread_create true none]) (Call.thread_destroy 1)).code = AURORA_OK ∧
      (aurora_thread_destroy (run KernelState.new
        ([Call.kernel_init 0, Call.thread_create true none, Call.thread_create true none] ++
          Call.thread_destroy 1 ::
            [Call.thread_create true none, Call.thread_destroy 2,
              Call.thread_create true none])) 1).code
        = AURORA_ERROR_INVALID_PARAM :=
  ⟨by decide,
    congrArg Outcome.code (C6_destroy_already_destroyed
      [Call.kernel_init 0, Call.thread_create true none, Call.thread_create true none]
      [Call.thread_create true none, Call.thread_destroy 2, Call.thread_create true none] 1
      (by decide) (by decide) (by decide)).1⟩

/-- C7 (double initialize). In an initialized state `initialize` returns
`AURORA_ERROR_ALREADY_INITIALIZED` and the state (flag, start time, registry,
id counter) is exactly the state before; in an uninitialized state it returns
`AURORA_OK`, sets the flag and records the clock reading as start time (the
registry and the id counter stay as they were). -/
theorem C7_double_init (g : KernelState) (now : Int) :
    (g.m_initialized = true →
        aurora_kernel_init g now = ⟨AURORA_ERROR_ALREADY_INITIALIZED, g, Written.nothing⟩) ∧
      (g.m_initialized = false →
        (aurora_kernel_init g now).code = AURORA_OK ∧
        (aurora_kernel_init g now).state.m_initialized = true ∧
        (aurora_kernel_init g now).state.m_start_time = now ∧
        (aurora_kernel_init g now).state.m_threads = g.m_threads ∧
        (aurora_kernel_init g now).state.m_next_thread_id = g.m_next_thread_id) := by
  constructor <;> intro h <;> simp [aurora_kernel_init, KernelState.initialize, h]

/-- Witness of C7: a first `initialize` at clock reading 5 and a second one at
clock reading 9. -/
theorem C7_double_init_witness :
    (aurora_kernel_init KernelState.new 5).code = AURORA_OK ∧
      (aurora_kernel_init KernelState.new 5).state.m_start_time = 5 ∧
      aurora_kernel_init (aurora_kernel_init KernelState.new 5).state 9
        = ⟨AURORA_ERROR_ALREADY_INITIALIZED, (aurora_kernel_init KernelState.new 5).state,
            Written.nothing⟩ :=
  ⟨((C7_double_init KernelState.new 5).2 (by decide)).1,
    ((C7_double_init KernelState.new 5).2 (by decide)).2.2.1,
    (C7_double_init (aurora_kernel_init KernelState.new 5).state 9).1 (by decide)⟩

/-- C8, counterexample. In the fresh (uninitialized) state
`aurora_thread_get_count` with a non-null output does not return `AURORA_OK`: it
answers `AURORA_ERROR_NOT_INITIALIZED` and stores nothing. -/
theorem C8_counterexample :
    (aurora_thread_get_count KernelState.new true).code ≠ AURORA_OK ∧
      aurora_thread_get_count KernelState.new true
        = ⟨AURORA_ERROR_NOT_INITIALIZED, KernelState.new, Written.nothing⟩ := by
  decide

/-- C8 as amended (thread count). The method `get_active_thread_count` has no
lifecycle gate: in every state it yields the registry size modulo `2 ^ 32` (the
size itself when below `2 ^ 32`), which is 0 in every uninitialized state
reached from the fresh state. The boundary function `aurora_thread_get_count`
with a non-null output returns `AURORA_OK` and stores that value when the kernel
is initialized, and returns `AURORA_ERROR_NOT_INITIALIZED`, storing nothing,
when it is not; it never changes the state. -/
theorem C8_thread_count_gate (cs : List Call) (g : KernelState) :
    g.get_active_thread_count = g.m_threads.length % 2 ^ 32 ∧
      (g.m_threads.length < 2 ^ 32 → g.get_active_thread_count = g.m_threads.length) ∧
      ((run KernelState.new cs).m_initialized = false →
        (run KernelState.new cs).get_active_thread_count = 0) ∧
      (g.m_initialized = true →
        aurora_thread_get_count g true
          = ⟨AURORA_OK, g, Written.count g.get_active_thread_count⟩) ∧
      (g.m_initialized = false →
        aurora_thread_get_count g true
          = ⟨AURORA_ERROR_NOT_INITIALIZED, g, Written.nothing⟩) := by
  refine ⟨rfl, fun h => Nat.mod_eq_of_lt h, ?_, ?_, ?_⟩
  · intro h
    rw [KernelState.get_active_thread_count, run_keeps_inert KernelState.new cs (fun _ => rfl) h]
    rfl
  · intro h
    simp [aurora_thread_get_count, KernelState.is_initialized, h]
  · intro h
    simp [aurora_thread_get_count, KernelState.is_initialized, h]

/-- Witness of C8 as amended: the count is 2 after two creations and 0, behind
the gate, after the shutdown that follows. -/
theorem C8_thread_count_gate_witness :
    aurora_thread_get_count (run KernelState.new [Call.kernel_init 0,
        Call.thread_create true none, Call.thread_create true none]) true
        = ⟨AURORA_OK, run KernelState.new [Call.kernel_init 0,
            Call.thread_create true none, Call.thread_create true none], Written.count 2⟩ ∧
      (run KernelState.new [Call.kernel_init 0, Call.thread_create true none,
        Call.thread_create true none, Call.kernel_shutdown]).get_active_thread_count = 0 ∧
      aurora_thread_get_count (run KernelState.new [Call.kernel_init 0,
        Call.thread_create true none, Call.thread_create true none, Call.kernel_shutdown]) true
        = ⟨AURORA_ERROR_NOT_INITIALIZED, run KernelState.new [Call.kernel_init 0,
            Call.thread_create true none, Call.thread_create true none,
            Call.kernel_shutdown], Written.nothing⟩ :=
  ⟨(C8_thread_count_gate [] (run KernelState.new [Call.kernel_init 0,
      Call.thread_create true none, Call.thread_create true none])).2.2.2.1 (by decide),
    (C8_thread_count_gate [Call.kernel_init 0, Call.thread_create true none,
      Call.thread_create true none, Call.kernel_shutdown] KernelState.new).2.2.1 (by decide),
    (C8_thread_count_gate [] (run KernelState.new [Call.kernel_init 0,
      Call.thread_create true none, Call.thread_create true none,
      Call.kernel_shutdown])).2.2.2.2 (by decide)⟩

/-- C9 (failure atomicity). For every boundary call, every state and all
argument values: when the call returns a code other than `AURORA_OK`, the
kernel state after the call is the state before it. -/
theorem C9_failure_atomicity (g : KernelState) (c : Call)
    (h : (call g c).code ≠ AURORA_OK) : (call g c).state = g :=
  call_state_of_not_ok g c h

/-- Witness of C9: destroying an id that is not registered. -/
theorem C9_failure_atomicity_witness :
    (call (run KernelState.new [Call.kernel_init 0, Call.thread_create true none])
        (Call.thread_destroy 7)).code ≠ AURORA_OK ∧
      (call (run KernelState.new [Call.kernel_init 0, Call.thread_create true none])
        (Call.thread_destroy 7)).state
        = run KernelState.new [Call.kernel_init 0, Call.thread_create true none] :=
  ⟨by decide,
    C9_failure_atomicity (run KernelState.new [Call.kernel_init 0, Call.thread_create true none])
      (Call.thread_destroy 7) (by decide)⟩

/-- C10 (registry/lifecycle invariant). In every state reached from the fresh
state by a sequence of boundary calls, `m_initialized = false` implies an empty
registry; `shutdown` in an initialized state returns `AURORA_OK` and yields
`m_initialized = false` with an empty registry; `shutdown` in an uninitialized
state returns `AURORA_ERROR_NOT_INITIALIZED`. -/
theorem C10_registry_lifecycle_invariant (cs : List Call) (g : KernelState) :
    ((run KernelState.new cs).m_initialized = false → (run KernelState.new cs).m_threads = []) ∧
      (g.m_initialized = true →
        (aurora_kernel_shutdown g).code = AURORA_OK ∧
        (aurora_kernel_shutdown g).state.m_initialized = false ∧
        (aurora_kernel_shutdown g).state.m_threads = []) ∧
      (g.m_initialized = false →
        (aurora_kernel_shutdown g).code = AURORA_ERROR_NOT_INITIALIZED) := by
  refine ⟨run_keeps_inert _ cs (fun _ => rfl), ?_, ?_⟩ <;> intro h <;>
    simp [aurora_kernel_shutdown, KernelState.shutdown, h]

/-- Witness of C10: two threads are created, then the kernel is shut down. -/
theorem C10_registry_lifecycle_invariant_witness :
    (run KernelState.new [Call.kernel_init 0, Call.thread_create true none,
        Call.thread_create true none, Call.kernel_shutdown]).m_initialized = false ∧
      (run KernelState.new [Call.kernel_init 0, Call.thread_create true none,
        Call.thread_create true none, Call.kernel_shutdown]).m_threads = [] ∧
      (aurora_kernel_shutdown (run KernelState.new [Call.kernel_init 0,
        Call.thread_create true none])).state.m_threads = [] ∧
      (aurora_kernel_shutdown KernelState.new).code = AURORA_ERROR_NOT_INITIALIZED :=
  ⟨by decide,
    (C10_registry_lifecycle_invariant [Call.kernel_init 0, Call.thread_create true none,
      Call.thread_create true none, Call.kernel_shutdown] KernelState.new).1 (by decide),
    ((C10_registry_lifecycle_invariant []
      (run KernelState.new [Call.kernel_init 0, Call.thread_create true none])).2.1
        (by decide)).2.2,
    (C10_registry_lifecycle_invariant [] KernelState.new).2.2 (by decide)⟩

/-- C11 (reference scenario). From the fresh state, whatever the clock readings
`t0` and `t1`: `initialize()` returns OK; `create_thread("a")` returns id 1;
`create_thread("b")` returns id 2; `destroy_thread(1)` returns OK and the count
is 1; `destroy_thread(1)` again returns `InvalidParam`; `get_status()` reports
`active_threads = 1` and version 0.1.0; `shutdown()` returns OK;
`get_active_thread_count()` then returns 0. -/
theorem C11_reference_scenario (t0 t1 : Int) :
    (trace KernelState.new
        [Call.kernel_init t0,
         Call.thread_create true (some "a".toList),
         Call.thread_create true (some "b".toList),
         Call.thread_destroy 1,
         Call.thread_get_count true,
         Call.thread_destroy 1,
         Call.kernel_get_status t1 true,
         Call.kernel_shutdown]).map (fun o => (o.code, o.written))
      = [(AURORA_OK, Written.nothing),
         (AURORA_OK, Written.thread_id 1),
         (AURORA_OK, Written.thread_id 2),
         (AURORA_OK, Written.nothing),
         (AURORA_OK, Written.count 1),
         (AURORA_ERROR_INVALID_PARAM, Written.nothing),
         (AURORA_OK, Written.status
            { initialized := true, version_major := 0, version_minor := 1,
              version_patch := 0,
              uptime_ms := (((t1 - t0).tdiv 1000000) % (2 ^ 64 : Int)).toNat,
              active_threads := 1 }),
         (AURORA_OK, Written.nothing)] ∧
      (run KernelState.new
        [Call.kernel_init t0,
         Call.thread_create true (some "a".toList),
         Call.thread_create true (some "b".toList),
         Call.thread_destroy 1]).get_active_thread_count = 1 ∧
      (run KernelState.new
        [Call.kernel_init t0,
         Call.thread_create true (some "a".toList),
         Call.thread_create true (some "b".toList),
         Call.thread_destroy 1,
         Call.thread_get_count true,
         Call.thread_destroy 1,
         Call.kernel_get_status t1 true,
         Call.kernel_shutdown]).get_active_thread_count = 0 := by
  refine ⟨?_, ?_, ?_⟩ <;>
    simp [trace, run, call, aurora_kernel_init, aurora_kernel_shutdown,
      aurora_kernel_get_status, aurora_thread_create, aurora_thread_destroy,
      aurora_thread_get_count, KernelState.new, KernelState.initialize,
      KernelState.shutdown, KernelState.create_thread, KernelState.destroy_thread,
      KernelState.destroy_loop, KernelState.get_active_thread_count,
      KernelState.get_uptime_ms, KernelState.is_initialized, AURORA_ABI_VERSION_MAJOR,
      AURORA_ABI_VERSION_MINOR, AURORA_ABI_VERSION_PATCH]

/-- C12 (argument validation before the lifecycle gate). In every state,
initialized or not, `aurora_demo_kernel_call` with a null input, a null output
or `output_size = 0` returns `AURORA_ERROR_INVALID_PARAM`; so do
`aurora_kernel_get_status`, `aurora_thread_create`, `aurora_thread_get_count`,
`aurora_ipc_send` and `aurora_ipc_receive` when a required pointer is null. In
each case nothing is stored and the state is left as it was. -/
theorem C12_validation_precedes_gate (g : KernelState) (now : Int)
    (input name : Option CString) (output sender message : Bool) (output_size target : Nat) :
    aurora_demo_kernel_call g now none output output_size
        = ⟨AURORA_ERROR_INVALID_PARAM, g, Written.nothing⟩ ∧
      aurora_demo_kernel_call g now input false output_size
        = ⟨AURORA_ERROR_INVALID_PARAM, g, Written.nothing⟩ ∧
      aurora_demo_kernel_call g now input output 0
        = ⟨AURORA_ERROR_INVALID_PARAM, g, Written.nothing⟩ ∧
      aurora_kernel_get_status g now false
        = ⟨AURORA_ERROR_INVALID_PARAM, g, Written.nothing⟩ ∧
      aurora_thread_create g false name
        = ⟨AURORA_ERROR_INVALID_PARAM, g, Written.nothing⟩ ∧
      aurora_thread_get_count g false
        = ⟨AURORA_ERROR_INVALID_PARAM, g, Written.nothing⟩ ∧
      aurora_ipc_send g target none
        = ⟨AURORA_ERROR_INVALID_PARAM, g, Written.nothing⟩ ∧
      aurora_ipc_receive g now false message
        = ⟨AURORA_ERROR_INVALID_PARAM, g, Written.nothing⟩ ∧
      aurora_ipc_receive g now sender false
        = ⟨AURORA_ERROR_INVALID_PARAM, g, Written.nothing⟩ := by
  refine ⟨rfl, ?_, ?_, rfl, rfl, rfl, rfl, ?_, ?_⟩
  · cases input <;> simp [aurora_demo_kernel_call]
  · cases input <;> simp [aurora_demo_kernel_call]
  · simp [aurora_ipc_receive]
  · simp [aurora_ipc_receive]

/-- C14 (version reporting). The function `aurora_get_version_string` reads and
writes nothing of `g_kernel` (it has no state argument), so in every state,
before `initialize`, while initialized and after `shutdown`, it returns the
same text: `"0.1.0"`, the decimal rendering of the triple major.minor.patch =
0.1.0. -/
theorem C14_version_string :
    aurora_get_version_string = "0.1.0".toList ∧
      aurora_get_version_string
        = (Nat.repr AURORA_ABI_VERSION_MAJOR).toList ++ ['.'] ++
          (Nat.repr AURORA_ABI_VERSION_MINOR).toList ++ ['.'] ++
          (Nat.repr AURORA_ABI_VERSION_PATCH).toList ∧
      (AURORA_ABI_VERSION_MAJOR, AURORA_ABI_VERSION_MINOR, AURORA_ABI_VERSION_PATCH)
        = (0, 1, 0) := by
  decide

/-- C15, counterexample. In the initialized state reached by `initialize` at
clock reading 0 and the `2 ^ 32` creations of `calls_filling`, the registry
holds `2 ^ 32` records, and `aurora_kernel_get_status` at a clock reading not
before the start time returns OK with `active_threads = 0`. -/
theorem C15_counterexample :
    (run (call KernelState.new (Call.kernel_init 0)).state calls_filling).m_initialized
        = true ∧
      (run (call KernelState.new (Call.kernel_init 0)).state calls_filling).m_start_time
        ≤ 0 ∧
      (run (call KernelState.new (Call.kernel_init 0)).state calls_filling).m_threads.length
        = 4294967296 ∧
      aurora_kernel_get_status
          (run (call KernelState.new (Call.kernel_init 0)).state calls_filling) 0 true
        = ⟨AURORA_OK, run (call KernelState.new (Call.kernel_init 0)).state calls_filling,
            Written.status
              { initialized := true, version_major := 0, version_minor := 1,
                version_patch := 0,
                uptime_ms := (run (call KernelState.new (Call.kernel_init 0)).state
                  calls_filling).get_uptime_ms 0,
                active_threads := 0 }⟩ := by
  have hinit : (run (call KernelState.new (Call.kernel_init 0)).state
      calls_filling).m_initialized = true :=
    (run_replicate_create 4294967296 none
      (call KernelState.new (Call.kernel_init 0)).state (by decide)).1
  have hstart : (run (call KernelState.new (Call.kernel_init 0)).state
      calls_filling).m_start_time = (call KernelState.new (Call.kernel_init 0)).state.m_start_time :=
    run_replicate_create_start 4294967296 none
      (call KernelState.new (Call.kernel_init 0)).state
  have hlen := run_calls_filling.1
  have hcount : (run (call KernelState.new (Call.kernel_init 0)).state
      calls_filling).get_active_thread_count = 0 := by
    rw [KernelState.get_active_thread_count, hlen]
    norm_num
  refine ⟨hinit, ?_, hlen, ?_⟩
  · rw [hstart]
    decide
  · rw [aurora_kernel_get_status, hcount, KernelState.is_initialized, hinit]
    rfl

/-- C15 as amended (status snapshot). For every initialized state and every clock
reading `now` with `m_start_time ≤ now` (the difference being a 64-bit tick
count), `aurora_kernel_get_status` with a non-null output returns OK, leaves
the state as it was and fills in `initialized = true`, version (0, 1, 0),
`uptime_ms` = the whole number of milliseconds in `now - m_start_time`, and
`active_threads` = the registry size modulo `2 ^ 32`, which is the registry size
itself whenever that is below `2 ^ 32`. -/
theorem C15_status_snapshot (g : KernelState) (now : Int)
    (hinit : g.m_initialized = true) (hnow : g.m_start_time ≤ now)
    (hticks : now - g.m_start_time < 2 ^ 63) :
    aurora_kernel_get_status g now true
        = ⟨AURORA_OK, g,
            Written.status
              { initialized := true, version_major := 0, version_minor := 1,
                version_patch := 0,
                uptime_ms := ((now - g.m_start_time) / 1000000).toNat,
                active_threads := g.m_threads.length % 2 ^ 32 }⟩ ∧
      (g.m_threads.length < 2 ^ 32 →
        aurora_kernel_get_status g now true
          = ⟨AURORA_OK, g,
              Written.status
                { initialized := true, version_major := 0, version_minor := 1,
                  version_patch := 0,
                  uptime_ms := ((now - g.m_start_time) / 1000000).toNat,
                  active_threads := g.m_threads.length }⟩) := by
  have hd : 0 ≤ now - g.m_start_time := by omega
  have hup : g.get_uptime_ms now = ((now - g.m_start_time) / 1000000).toNat := by
    simp only [KernelState.get_uptime_ms, hinit, Bool.not_true, Bool.false_eq_true, if_false]
    rw [Int.tdiv_eq_ediv hd (by norm_num)]
    rw [Int.emod_eq_of_lt (Int.ediv_nonneg hd (by norm_num))]
    have h1 : (now - g.m_start_time) / 1000000 ≤ now - g.m_start_time :=
      Int.ediv_le_self _ hd
    have h2 : (2 : Int) ^ 63 < 2 ^ 64 := by norm_num
    omega
  have hmain : aurora_kernel_get_status g now true
      = ⟨AURORA_OK, g,
          Written.status
            { initialized := true, version_major := 0, version_minor := 1,
              version_patch := 0,
              uptime_ms := ((now - g.m_start_time) / 1000000).toNat,
              active_threads := g.m_threads.length % 2 ^ 32 }⟩ := by
    simp [aurora_kernel_get_status, KernelState.is_initialized, hinit, hup,
      KernelState.get_active_thread_count, AURORA_ABI_VERSION_MAJOR,
      AURORA_ABI_VERSION_MINOR, AURORA_ABI_VERSION_PATCH]
  refine ⟨hmain, ?_⟩
  intro hlt
  rw [hmain, Nat.mod_eq_of_lt hlt]

/-- Witness of C15 as amended: two threads, 5.9 milliseconds after the start. -/
theorem C15_status_snapshot_witness :
    (run KernelState.new [Call.kernel_init 1000, Call.thread_create true none,
        Call.thread_create true none]).m_initialized = true ∧
      aurora_kernel_get_status
          (run KernelState.new [Call.kernel_init 1000, Call.thread_create true none,
            Call.thread_create true none]) 5901000 true
        = ⟨AURORA_OK,
            run KernelState.new [Call.kernel_init 1000, Call.thread_create true none,
              Call.thread_create true none],
            Written.status
              { initialized := true, version_major := 0, version_minor := 1,
                version_patch := 0, uptime_ms := 5, active_threads := 2 }⟩ :=
  ⟨by decide,
    (C15_status_snapshot
      (run KernelState.new [Call.kernel_init 1000, Call.thread_create true none,
        Call.thread_create true none]) 5901000 (by decide) (by decide) (by decide)).2
      (by decide)⟩

/-- C16, counterexample. In the initialized state reached by `calls_to_last_id`
the id counter is `2 ^ 32 - 1`; `aurora_thread_create` returns OK with that id,
and the counter afterwards is 0, not the counter before plus one. -/
theorem C16_counterexample :
    (run KernelState.new calls_to_last_id).m_initialized = true ∧
      (run KernelState.new calls_to_last_id).m_next_thread_id = 4294967295 ∧
      (aurora_thread_create (run KernelState.new calls_to_last_id) true none).code
        = AURORA_OK ∧
      (aurora_thread_create (run KernelState.new calls_to_last_id) true none).written
        = Written.thread_id 4294967295 ∧
      (aurora_thread_create (run KernelState.new calls_to_last_id) true
        none).state.m_next_thread_id = 0 ∧
      (aurora_thread_create (run KernelState.new calls_to_last_id) true
        none).state.m_next_thread_id
        ≠ (run KernelState.new calls_to_last_id).m_next_thread_id + 1 := by
  rw [run_calls_to_last_id]
  decide

/-- C16 as amended (`create_thread` postcondition). For every initialized state
and every name (possibly null), `aurora_thread_create` with a non-null
`thread_id` returns OK, stores the value the id counter had before the call,
increments the counter by one modulo `2 ^ 32` (exactly by one unless the counter
was `2 ^ 32 - 1`, which is followed by 0) and appends at the end of the registry exactly one record with
that id, `active = true` and the first 63 characters of the name (`"unnamed"`
when the name is null); the earlier records, their order, the lifecycle flag and
the start time are as before. -/
theorem C16_create_thread_post (g : KernelState) (name : Option CString)
    (hinit : g.m_initialized = true) :
    aurora_thread_create g true name
        = ⟨AURORA_OK,
            { m_initialized := g.m_initialized,
              m_start_time := g.m_start_time,
              m_threads := g.m_threads ++
                [{ id := g.m_next_thread_id,
                   name := (match name with
                     | some n => n.take 63
                     | none => "unnamed".toList),
                   active := true }],
              m_next_thread_id := (g.m_next_thread_id + 1) % 2 ^ 32 },
            Written.thread_id g.m_next_thread_id⟩ ∧
      (g.m_next_thread_id + 1 < 2 ^ 32 →
        (aurora_thread_create g true name).state.m_next_thread_id
          = g.m_next_thread_id + 1) ∧
      (aurora_thread_create g true name).state.m_threads.length
        = g.m_threads.length + 1 := by
  cases name with
  | none =>
    have hn : Thread.copy_name none = "unnamed".toList := by decide
    refine ⟨?_, ?_, ?_⟩
    · simp [aurora_thread_create, KernelState.create_thread, hinit, hn]
    · intro hlt
      simp only [aurora_thread_create, KernelState.create_thread, hinit, Bool.not_true,
        Bool.false_eq_true, if_false]
      exact Nat.mod_eq_of_lt hlt
    · simp [aurora_thread_create, KernelState.create_thread, hinit]
  | some n =>
    have hn : Thread.copy_name (some n) = n.take 63 := rfl
    refine ⟨?_, ?_, ?_⟩
    · simp [aurora_thread_create, KernelState.create_thread, hinit, hn]
    · intro hlt
      simp only [aurora_thread_create, KernelState.create_thread, hinit, Bool.not_true,
        Bool.false_eq_true, if_false]
      exact Nat.mod_eq_of_lt hlt
    · simp [aurora_thread_create, KernelState.create_thread, hinit]

/-- Witness of C16: a third thread with a name of 70 characters, cut to 63. -/
theorem C16_create_thread_post_witness :
    (run KernelState.new [Call.kernel_init 0, Call.thread_create true none,
        Call.thread_create true (some "b".toList)]).m_initialized = true ∧
      (aurora_thread_create
        (run KernelState.new [Call.kernel_init 0, Call.thread_create true none,
          Call.thread_create true (some "b".toList)]) true
        (some (List.replicate 70 'x'))).state.m_threads
        = [⟨1, "unnamed".toList, true⟩, ⟨2, "b".toList, true⟩,
            ⟨3, List.replicate 63 'x', true⟩] ∧
      (aurora_thread_create
        (run KernelState.new [Call.kernel_init 0, Call.thread_create true none,
          Call.thread_create true (some "b".toList)]) true
        (some (List.replicate 70 'x'))).state.m_next_thread_id = 3 + 1 :=
  ⟨by decide,
    by
      rw [(C16_create_thread_post
        (run KernelState.new [Call.kernel_init 0, Call.thread_create true none,
          Call.thread_create true (some "b".toList)])
        (some (List.replicate 70 'x')) (by decide)).1]
      decide,
    (C16_create_thread_post
      (run KernelState.new [Call.kernel_init 0, Call.thread_create true none,
        Call.thread_create true (some "b".toList)])
      (some (List.replicate 70 'x')) (by decide)).2.1 (by decide)⟩

/-- C17 (atomicity under concurrent callers), evaluated at one interleaving.
Thread A calls `aurora_kernel_get_status` in the initialized state `g0` with two
threads, 5 milliseconds after the start; thread B's `aurora_kernel_shutdown`
runs between A's `is_initialized` check and A's reads of the uptime and of the
thread count. A then returns OK with `initialized = true`, `uptime_ms = 0` and
`active_threads = 0`: neither the result of the call in the state before the
shutdown (uptime 5, two threads) nor the result in the state after it
(`AURORA_ERROR_NOT_INITIALIZED`), so the call is not atomic with respect to the
shutdown. -/
theorem C17_get_status_not_atomic :
    aurora_kernel_get_status_overlapped
        (run KernelState.new [Call.kernel_init 0, Call.thread_create true none,
          Call.thread_create true none])
        (aurora_kernel_shutdown (run KernelState.new [Call.kernel_init 0,
          Call.thread_create true none, Call.thread_create true none])).state
        (aurora_kernel_shutdown (run KernelState.new [Call.kernel_init 0,
          Call.thread_create true none, Call.thread_create true none])).state
        5000000 true
      = (AURORA_OK, Written.status
          { initialized := true, version_major := 0, version_minor := 1, version_patch := 0,
            uptime_ms := 0, active_threads := 0 }) ∧
      aurora_kernel_get_status
        (run KernelState.new [Call.kernel_init 0, Call.thread_create true none,
          Call.thread_create true none])
        5000000 true
      = ⟨AURORA_OK,
          run KernelState.new [Call.kernel_init 0, Call.thread_create true none,
            Call.thread_create true none],
          Written.status
            { initialized := true, version_major := 0, version_minor := 1,
              version_patch := 0, uptime_ms := 5, active_threads := 2 }⟩ ∧
      aurora_kernel_get_status
        (aurora_kernel_shutdown (run KernelState.new [Call.kernel_init 0,
          Call.thread_create true none, Call.thread_create true none])).state
        5000000 true
      = ⟨AURORA_ERROR_NOT_INITIALIZED,
          (aurora_kernel_shutdown (run KernelState.new [Call.kernel_init 0,
            Call.thread_create true none, Call.thread_create true none])).state,
          Written.nothing⟩ := by
  decide

/-- C18 (`destroy_thread` removes exactly one record). For every initialized
state whose registry contains a record with the given id, `destroy_thread`
returns OK and the new registry is the old one with the first record of that id
erased: the old registry is `l1 ++ t :: l2` with `t` the first record of that
id, and the new one is `l1 ++ l2`. The size decreases by exactly one, every
other record is kept as it is and in the same order, and the id counter, the
lifecycle flag and the start time are as before. -/
theorem C18_destroy_removes_one (g : KernelState) (thread_id : Nat)
    (hinit : g.m_initialized = true) (hmem : ∃ t ∈ g.m_threads, t.id = thread_id) :
    aurora_thread_destroy g thread_id
        = ⟨AURORA_OK,
            { m_initialized := g.m_initialized,
              m_start_time := g.m_start_time,
              m_threads := g.m_threads.eraseP (fun u => u.id == thread_id),
              m_next_thread_id := g.m_next_thread_id },
            Written.nothing⟩ ∧
      (∃ l1 t l2, g.m_threads = l1 ++ t :: l2 ∧ t.id = thread_id ∧
        (∀ u ∈ l1, u.id ≠ thread_id) ∧
        (aurora_thread_destroy g thread_id).state.m_threads = l1 ++ l2) ∧
      (aurora_thread_destroy g thread_id).state.m_threads.length + 1 = g.m_threads.length ∧
      (aurora_thread_destroy g thread_id).state.m_threads.Sublist g.m_threads := by
  obtain ⟨t0, ht0, hid0⟩ := hmem
  cases hl : KernelState.destroy_loop thread_id g.m_threads with
  | none => exact absurd hid0 ((destroy_loop_eq_none_iff thread_id g.m_threads).mp hl t0 ht0)
  | some ts =>
    have hs : aurora_thread_destroy g thread_id
        = ⟨AURORA_OK, { g with m_threads := ts }, Written.nothing⟩ := by
      simp [aurora_thread_destroy, KernelState.destroy_thread, hinit, hl]
    obtain ⟨l1, t, l2, h1, h2, h3, h4⟩ := destroy_loop_split thread_id _ ts hl
    obtain ⟨h5, h6, _⟩ := destroy_loop_some thread_id _ ts hl
    refine ⟨?_, ⟨l1, t, l2, h1, h2, h3, ?_⟩, ?_, ?_⟩
    · rw [hs, destroy_loop_eq_eraseP thread_id _ ts hl]
    · rw [hs]; exact h4
    · rw [hs]; exact h5
    · rw [hs]; exact h6

/-- Witness of C18: of the threads 1, 2, 3 the thread 2 is destroyed. -/
theorem C18_destroy_removes_one_witness :
    (run KernelState.new [Call.kernel_init 0, Call.thread_create true none,
        Call.thread_create true none, Call.thread_create true none]).m_initialized = true ∧
      (∃ t ∈ (run KernelState.new [Call.kernel_init 0, Call.thread_create true none,
        Call.thread_create true none, Call.thread_create true none]).m_threads, t.id = 2) ∧
      aurora_thread_destroy
          (run KernelState.new [Call.kernel_init 0, Call.thread_create true none,
            Call.thread_create true none, Call.thread_create true none]) 2
        = ⟨AURORA_OK,
            { m_initialized := true, m_start_time := 0,
              m_threads := [⟨1, "unnamed".toList, true⟩, ⟨3, "unnamed".toList, true⟩],
              m_next_thread_id := 4 },
            Written.nothing⟩ :=
  ⟨by decide, ⟨⟨2, "unnamed".toList, true⟩, by decide, rfl⟩,
    (C18_destroy_removes_one
      (run KernelState.new [Call.kernel_init 0, Call.thread_create true none,
        Call.thread_create true none, Call.thread_create true none]) 2 (by decide)
      ⟨⟨2, "unnamed".toList, true⟩, by decide, rfl⟩).1⟩

/-- C19 (send and receive are not paired). For every initialized state `g`,
`aurora_ipc_send` returns OK for every target id (registered or not) and every
message, and leaves the state as it was; `aurora_ipc_receive` returns OK with
sender 0, `msg_id` 1, the text "Demo message from kernel" with `data_size` 24,
and as timestamp the current uptime in milliseconds: the millisecond cast of
`now - m_start_time` as a `uint64_t`, which is the whole number of milliseconds
elapsed since the start when `m_start_time ≤ now`. For two sequences of calls
`cs1`, `cs2` from one state `g0` that differ only in their `aurora_ipc_send`
calls (where they stand, their targets, their messages), a following
`aurora_ipc_receive` has the same outcome. -/
theorem C19_send_receive_unpaired (g g0 : KernelState) (now : Int) (target : Nat)
    (m : aurora_message_t) (cs1 cs2 : List Call)
    (hinit : g.m_initialized = true)
    (hsame : (cs1.filter fun c => !c.is_send) = (cs2.filter fun c => !c.is_send)) :
    aurora_ipc_send g target (some m) = ⟨AURORA_OK, g, Written.nothing⟩ ∧
      aurora_ipc_receive g now true true
        = ⟨AURORA_OK, g,
            Written.received 0
              { msg_id := 1,
                timestamp := (((now - g.m_start_time).tdiv 1000000) % (2 ^ 64 : Int)).toNat,
                data := "Demo message from kernel".toList, data_size := 24 }⟩ ∧
      (g.m_start_time ≤ now → now - g.m_start_time < 2 ^ 63 →
        aurora_ipc_receive g now true true
          = ⟨AURORA_OK, g,
              Written.received 0
                { msg_id := 1,
                  timestamp := ((now - g.m_start_time) / 1000000).toNat,
                  data := "Demo message from kernel".toList, data_size := 24 }⟩) ∧
      (aurora_ipc_receive g now true true).written
        = Written.received 0
            { msg_id := 1, timestamp := g.get_uptime_ms now,
              data := "Demo message from kernel".toList, data_size := 24 } ∧
      call (run g0 cs1) (Call.ipc_receive now true true)
        = call (run g0 cs2) (Call.ipc_receive now true true) := by
  have hd : ("Demo message from kernel".toList.take (256 - 1) : CString)
      = "Demo message from kernel".toList := by decide
  have hl : ("Demo message from kernel".toList : CString).length % 2 ^ 32 = 24 := by decide
  have hrecv : aurora_ipc_receive g now true true
      = ⟨AURORA_OK, g,
          Written.received 0
            { msg_id := 1, timestamp := g.get_uptime_ms now,
              data := "Demo message from kernel".toList, data_size := 24 }⟩ := by
    simp only [aurora_ipc_receive, KernelState.is_initialized, hinit, hd, hl]
    rfl
  have hup : g.get_uptime_ms now
      = (((now - g.m_start_time).tdiv 1000000) % (2 ^ 64 : Int)).toNat := by
    simp [KernelState.get_uptime_ms, hinit]
  refine ⟨?_, ?_, ?_, ?_, ?_⟩
  · simp [aurora_ipc_send, KernelState.is_initialized, hinit]
  · rw [hrecv, hup]
  · intro hnow hticks
    rw [hrecv, hup, ms_cast_elapsed _ (by omega) hticks]
  · rw [hrecv]
  · rw [run_without_sends cs1, run_without_sends cs2, hsame]

/-- Witness of C19: the same creations with different messages sent in
between; a message received 3.2 milliseconds after the start carries the
timestamp 3. -/
theorem C19_send_receive_unpaired_witness :
    (run KernelState.new [Call.kernel_init 1000, Call.thread_create true none]).m_initialized
        = true ∧
      aurora_ipc_send
          (run KernelState.new [Call.kernel_init 1000, Call.thread_create true none])
          77 (some ⟨42, 1234567890, "Test message".toList, 12⟩)
        = ⟨AURORA_OK,
            run KernelState.new [Call.kernel_init 1000, Call.thread_create true none],
            Written.nothing⟩ ∧
      aurora_ipc_receive
          (run KernelState.new [Call.kernel_init 1000, Call.thread_create true none])
          3201000 true true
        = ⟨AURORA_OK,
            run KernelState.new [Call.kernel_init 1000, Call.thread_create true none],
            Written.received 0
              { msg_id := 1, timestamp := 3,
                data := "Demo message from kernel".toList, data_size := 24 }⟩ ∧
      call (run KernelState.new [Call.kernel_init 1000,
          Call.ipc_send 1 (some ⟨42, 1234567890, "Test message".toList, 12⟩),
          Call.thread_create true none]) (Call.ipc_receive 3201000 true true)
        = call (run KernelState.new [Call.kernel_init 1000, Call.thread_create true none,
          Call.ipc_send 9 (some ⟨7, 0, "x".toList, 1⟩), Call.ipc_send 1 none])
          (Call.ipc_receive 3201000 true true) :=
  ⟨by decide,
    (C19_send_receive_unpaired
      (run KernelState.new [Call.kernel_init 1000, Call.thread_create true none])
      KernelState.new 3201000 77 ⟨42, 1234567890, "Test message".toList, 12⟩
      [Call.kernel_init 1000,
        Call.ipc_send 1 (some ⟨42, 1234567890, "Test message".toList, 12⟩),
        Call.thread_create true none]
      [Call.kernel_init 1000, Call.thread_create true none,
        Call.ipc_send 9 (some ⟨7, 0, "x".toList, 1⟩), Call.ipc_send 1 none]
      (by decide) (by decide)).1,
    (C19_send_receive_unpaired
      (run KernelState.new [Call.kernel_init 1000, Call.thread_create true none])
      KernelState.new 3201000 77 ⟨42, 1234567890, "Test message".toList, 12⟩
      [Call.kernel_init 1000,
        Call.ipc_send 1 (some ⟨42, 1234567890, "Test message".toList, 12⟩),
        Call.thread_create true none]
      [Call.kernel_init 1000, Call.thread_create true none,
        Call.ipc_send 9 (some ⟨7, 0, "x".toList, 1⟩), Call.ipc_send 1 none]
      (by decide) (by decide)).2.2.1 (by decide) (by decide),
    (C19_send_receive_unpaired
      (run KernelState.new [Call.kernel_init 1000, Call.thread_create true none])
      KernelState.new 3201000 77 ⟨42, 1234567890, "Test message".toList, 12⟩
      [Call.kernel_init 1000,
        Call.ipc_send 1 (some ⟨42, 1234567890, "Test message".toList, 12⟩),
        Call.thread_create true none]
      [Call.kernel_init 1000, Call.thread_create true none,
        Call.ipc_send 9 (some ⟨7, 0, "x".toList, 1⟩), Call.ipc_send 1 none]
      (by decide) (by decide)).2.2.2.2⟩

/-- C20 (the id counter survives lifecycle transitions). `shutdown` and
`initialize` leave the id counter as it was (whether they succeed or fail), so
after a shutdown followed by `initialize` the first `create_thread` returns the
counter value from before the shutdown; in a state reached from the fresh state
that value is greater than every id handed out before, as long as fewer than
`2 ^ 32` ids are handed out in total, that creation included. -/
theorem C20_counter_survives (g : KernelState) (t : Int) (name : Option CString)
    (cs : List Call) :
    (aurora_kernel_shutdown g).state.m_next_thread_id = g.m_next_thread_id ∧
      (aurora_kernel_init g t).state.m_next_thread_id = g.m_next_thread_id ∧
      (g.m_initialized = true →
        (trace g [Call.kernel_shutdown, Call.kernel_init t,
            Call.thread_create true name]).map (fun o => (o.code, o.written))
          = [(AURORA_OK, Written.nothing), (AURORA_OK, Written.nothing),
              (AURORA_OK, Written.thread_id g.m_next_thread_id)]) ∧
      ((issued KernelState.new cs).length + 1 < 2 ^ 32 →
        ∀ id ∈ issued KernelState.new cs, id < (run KernelState.new cs).m_next_thread_id) := by
  refine ⟨?_, ?_, ?_, ?_⟩
  · simp only [aurora_kernel_shutdown, KernelState.shutdown]
    split <;> rfl
  · simp only [aurora_kernel_init, KernelState.initialize]
    split <;> rfl
  · intro hinit
    simp [trace, call, aurora_kernel_shutdown, aurora_kernel_init, aurora_thread_create,
      KernelState.shutdown, KernelState.initialize, KernelState.create_thread, hinit]
  · intro hlen id hid
    obtain ⟨h1, _, _, h4⟩ := run_counted cs KernelState.new 0 rfl (by simp [KernelState.new])
      (by simp [KernelState.new]) (by omega)
    rw [h1, Nat.mod_eq_of_lt (by omega)]
    rw [h4] at hid
    have := List.mem_range'_1.mp hid
    omega

/-- Witness of C20: ids 1 and 2 in a first session, id 3 after shutdown and a
second `initialize`. -/
theorem C20_counter_survives_witness :
    (run KernelState.new [Call.kernel_init 0, Call.thread_create true none,
        Call.thread_create true none]).m_initialized = true ∧
      (trace (run KernelState.new [Call.kernel_init 0, Call.thread_create true none,
          Call.thread_create true none])
        [Call.kernel_shutdown, Call.kernel_init 9,
          Call.thread_create true none]).map (fun o => (o.code, o.written))
        = [(AURORA_OK, Written.nothing), (AURORA_OK, Written.nothing),
            (AURORA_OK, Written.thread_id 3)] ∧
      (issued KernelState.new [Call.kernel_init 0, Call.thread_create true none,
        Call.thread_create true none]).length + 1 < 2 ^ 32 ∧
      (2 : Nat) < (run KernelState.new [Call.kernel_init 0, Call.thread_create true none,
        Call.thread_create true none]).m_next_thread_id :=
  ⟨by decide,
    (C20_counter_survives
      (run KernelState.new [Call.kernel_init 0, Call.thread_create true none,
        Call.thread_create true none]) 9 none []).2.2.1 (by decide),
    by decide,
    (C20_counter_survives KernelState.new 9 none
      [Call.kernel_init 0, Call.thread_create true none,
        Call.thread_create true none]).2.2.2 (by decide) 2 (by decide)⟩

end aurora
